import Mathlib

/-!
# P3 microphysics driver: `p3_main_init` and `p3_main_internal`

A shallow embedding of `components/eamxx/src/physics/p3/impl/p3_main_impl.hpp`.

* Scalars are exact rationals (no rounding, no NaN; `1 / 0` is only met outside
  the hypotheses of the statements).  A `Spack` is a vector of `n` lanes with
  the lane-wise arithmetic of the C++ pack type.
* A view is a map from pack index to pack.  Views are referred to through
  handles, so that two arguments of a call may name the same buffer.
* `Kokkos::parallel_for` over `TeamVectorRange(team, nk_pack)` is the fold of
  the loop body over `0, 1, ..., nk_pack - 1`; barriers have no effect here.
* The stage routines called by `p3_main_internal` (`p3_main_part1`, ...) are
  defined in other files; they are fields of `Functions` and receive exactly
  the arguments of their call site.
* The team loop of `p3_main_internal` is the fold of the column task over the
  teams; team `i` reaches the memory of column `i`.
-/

namespace P3

/-! ## Scalars, packs and views -/

/-- The scalar type `Scalar` of the C++ code, taken as exact rational numbers. -/
abbrev Scalar := ℚ

/-- A pack `Spack`: `n` scalar lanes processed together. -/
abbrev Spack (n : Nat) := Fin n → Scalar

/-- Assignment of a scalar to a pack stores it in every lane. -/
def Spack.splat {n : Nat} (x : Scalar) : Spack n := fun _ => x

/-- The pack expression `c / p` for a scalar `c`: lane-wise division. -/
def Spack.sdiv {n : Nat} (c : Scalar) (p : Spack n) : Spack n := fun l => c / p l

/-- The pack expression `p * q`: lane-wise product. -/
def Spack.mul {n : Nat} (p q : Spack n) : Spack n := fun l => p l * q l

/-- The pack expression `max(p, c)` for a scalar `c`: lane-wise maximum. -/
def Spack.smax {n : Nat} (p : Spack n) (c : Scalar) : Spack n := fun l => max (p l) c

/-- A one-dimensional view `uview_1d<Spack>`: pack index to pack. -/
abbrev View (n : Nat) := Nat → Spack n

/-- The memory reachable through handles of type `H`. -/
abbrev Store (H : Type) (n : Nat) := H → View n

/-- The assignment `v(k) = x` through the handle `h`. -/
def setAt {H : Type} [DecidableEq H] {n : Nat}
    (st : Store H n) (h : H) (k : Nat) (x : Spack n) : Store H n :=
  Function.update st h (Function.update (st h) k x)

/-! ## `p3_main_init` -/

/-- The view arguments of `p3_main_init`, in the order of its signature. -/
structure InitArgs (H : Type) where
  cld_frac_i : H
  cld_frac_l : H
  cld_frac_r : H
  inv_exner : H
  th_atm : H
  dz : H
  diag_equiv_reflectivity : H
  ze_ice : H
  ze_rain : H
  diag_eff_radius_qc : H
  diag_eff_radius_qi : H
  diag_eff_radius_qr : H
  inv_cld_frac_i : H
  inv_cld_frac_l : H
  inv_cld_frac_r : H
  exner : H
  T_atm : H
  qv : H
  inv_dz : H
  zero_init : List H

/-- The views `p3_main_init` assigns a default or derived value to, in the
order of the assignments. -/
def InitArgs.outputs {H : Type} (a : InitArgs H) : List H :=
  [a.diag_equiv_reflectivity, a.ze_ice, a.ze_rain, a.diag_eff_radius_qc,
   a.diag_eff_radius_qi, a.diag_eff_radius_qr, a.inv_cld_frac_i, a.inv_cld_frac_l,
   a.inv_cld_frac_r, a.exner, a.T_atm, a.qv, a.inv_dz]

/-- The read-only views of `p3_main_init`. -/
def InitArgs.inputs {H : Type} (a : InitArgs H) : List H :=
  [a.cld_frac_i, a.cld_frac_l, a.cld_frac_r, a.inv_exner, a.th_atm, a.dz]

/-- The assigned views are distinct buffers and none of them is in `zero_init`. -/
def InitArgs.OutputsDistinct {H : Type} (a : InitArgs H) : Prop :=
  a.outputs.Nodup ∧ ∀ h ∈ a.outputs, h ∉ a.zero_init

/-- No read-only view is also an assigned view or in `zero_init`. -/
def InitArgs.InputsKept {H : Type} (a : InitArgs H) : Prop :=
  ∀ h ∈ a.inputs, h ∉ a.outputs ∧ h ∉ a.zero_init

instance InitArgs.decOutputsDistinct {H : Type} [DecidableEq H] (a : InitArgs H) :
    Decidable a.OutputsDistinct :=
  inferInstanceAs (Decidable (a.outputs.Nodup ∧ ∀ h ∈ a.outputs, h ∉ a.zero_init))

instance InitArgs.decInputsKept {H : Type} [DecidableEq H] (a : InitArgs H) :
    Decidable a.InputsKept :=
  inferInstanceAs (Decidable (∀ h ∈ a.inputs, h ∉ a.outputs ∧ h ∉ a.zero_init))

/-- The loop `for (j = 0; j < zero_init.size(); ++j) (*zero_init[j])(k) = 0`. -/
def zero_init_loop {H : Type} [DecidableEq H] {n : Nat}
    (zero_init : List H) (k : Nat) (st : Store H n) : Store H n :=
  zero_init.foldl (fun st h => setAt st h k (Spack.splat 0)) st

/-- The body of the level loop of `p3_main_init` at pack index `k`. -/
def p3_main_init_body {H : Type} [DecidableEq H] {n : Nat}
    (a : InitArgs H) (k : Nat) (st : Store H n) : Store H n :=
  let st := setAt st a.diag_equiv_reflectivity k (Spack.splat (-99))
  let st := setAt st a.ze_ice k (Spack.splat (1 / 10 ^ 22))
  let st := setAt st a.ze_rain k (Spack.splat (1 / 10 ^ 22))
  let st := setAt st a.diag_eff_radius_qc k (Spack.splat (10 / 10 ^ 6))
  let st := setAt st a.diag_eff_radius_qi k (Spack.splat (25 / 10 ^ 6))
  let st := setAt st a.diag_eff_radius_qr k (Spack.splat (500 / 10 ^ 6))
  let st := setAt st a.inv_cld_frac_i k (Spack.sdiv 1 (st a.cld_frac_i k))
  let st := setAt st a.inv_cld_frac_l k (Spack.sdiv 1 (st a.cld_frac_l k))
  let st := setAt st a.inv_cld_frac_r k (Spack.sdiv 1 (st a.cld_frac_r k))
  let st := setAt st a.exner k (Spack.sdiv 1 (st a.inv_exner k))
  let st := setAt st a.T_atm k (Spack.mul (st a.th_atm k) (st a.exner k))
  let st := setAt st a.qv k (Spack.smax (st a.qv k) 0)
  let st := setAt st a.inv_dz k (Spack.sdiv 1 (st a.dz k))
  zero_init_loop a.zero_init k st

/-- The level loop of `p3_main_init`: the body at `k = 0, ..., nk_pack - 1`. -/
def p3_main_init_loop {H : Type} [DecidableEq H] {n : Nat}
    (nk_pack : Nat) (a : InitArgs H) (st : Store H n) : Store H n :=
  (List.range nk_pack).foldl (fun st k => p3_main_init_body a k st) st

/-- The result of `p3_main_init`: the memory and the two surface accumulators. -/
structure InitResult (H : Type) (n : Nat) where
  store : Store H n
  precip_liq_surf : Scalar
  precip_ice_surf : Scalar

/-- The routine `p3_main_init`.  The two accumulators are passed by reference;
their values on entry are the arguments `precip_liq_surf`, `precip_ice_surf`. -/
def p3_main_init {H : Type} [DecidableEq H] {n : Nat}
    (nk_pack : Nat) (a : InitArgs H) (st : Store H n)
    (_precip_liq_surf _precip_ice_surf : Scalar) : InitResult H n :=
  let precip_liq_surf : Scalar := 0
  let precip_ice_surf : Scalar := 0
  { store := p3_main_init_loop nk_pack a st
    precip_liq_surf := precip_liq_surf
    precip_ice_surf := precip_ice_surf }

/-! ## The view variables of a column task -/

/-- The view variables of one column task of `p3_main_internal`: the 43
workspace buffers, then the single-column subviews `o...` of the 2-D arrays
(the pack-valued ones; `ocol_location` is only handed to the debug check). -/
inductive Var where
  | mu_r | T_atm | lamr | logn0r | nu | cdist | cdist1 | cdistr | inv_cld_frac_i
  | inv_cld_frac_l | inv_cld_frac_r | qc_incld | qr_incld | qi_incld | qm_incld | nc_incld
  | nr_incld | ni_incld | bm_incld | inv_dz | inv_rho | ze_ice | ze_rain | prec | rho | rhofacr
  | rhofaci | acn | qv_sat_l | qv_sat_i | sup | qv_supersat_i | tmparr1 | exner | diag_vm_qi
  | diag_diam_qi | pratot | prctot | qtend_ignore | ntend_ignore | mu_c | lamc | qr_evap_tend
  | opres | odz | onc_nuceat_tend | onccn_prescribed | oni_activated | oinv_qc_relvar | odpres
  | oinv_exner | ocld_frac_i | ocld_frac_l | ocld_frac_r | oqc | onc | oqr | onr | oqi | oqm
  | oni | obm | oqv | oth | odiag_eff_radius_qc | odiag_eff_radius_qi | odiag_eff_radius_qr
  | oqv2qi_depos_tend | orho_qi | oprecip_liq_flux | oprecip_ice_flux | oprecip_total_tend
  | onevapr | odiag_equiv_refl | oliq_ice_exchange | ovap_liq_exchange | ovap_ice_exchange
  | oqr2qv_evap | oqi2qv_sublim | oqc2qr_accret | oqc2qr_autoconv | oqv2qi_vapdep | oqc2qi_berg
  | oqc2qr_ice_shed | oqc2qi_collect | oqr2qi_collect | oqc2qi_hetero_freeze
  | oqr2qi_immers_freeze | oqi2qr_melt | oqr_sed | oqc_sed | oqi_sed | oqv_prev | ot_prev
  | ohetfrz_immersion_nucleation_tend | ohetfrz_contact_nucleation_tend
  | ohetfrz_deposition_nucleation_tend
  deriving DecidableEq

/-- The identifier of a view variable in the source. -/
def Var.ident : Var → String
  | .mu_r => "mu_r"
  | .T_atm => "T_atm"
  | .lamr => "lamr"
  | .logn0r => "logn0r"
  | .nu => "nu"
  | .cdist => "cdist"
  | .cdist1 => "cdist1"
  | .cdistr => "cdistr"
  | .inv_cld_frac_i => "inv_cld_frac_i"
  | .inv_cld_frac_l => "inv_cld_frac_l"
  | .inv_cld_frac_r => "inv_cld_frac_r"
  | .qc_incld => "qc_incld"
  | .qr_incld => "qr_incld"
  | .qi_incld => "qi_incld"
  | .qm_incld => "qm_incld"
  | .nc_incld => "nc_incld"
  | .nr_incld => "nr_incld"
  | .ni_incld => "ni_incld"
  | .bm_incld => "bm_incld"
  | .inv_dz => "inv_dz"
  | .inv_rho => "inv_rho"
  | .ze_ice => "ze_ice"
  | .ze_rain => "ze_rain"
  | .prec => "prec"
  | .rho => "rho"
  | .rhofacr => "rhofacr"
  | .rhofaci => "rhofaci"
  | .acn => "acn"
  | .qv_sat_l => "qv_sat_l"
  | .qv_sat_i => "qv_sat_i"
  | .sup => "sup"
  | .qv_supersat_i => "qv_supersat_i"
  | .tmparr1 => "tmparr1"
  | .exner => "exner"
  | .diag_vm_qi => "diag_vm_qi"
  | .diag_diam_qi => "diag_diam_qi"
  | .pratot => "pratot"
  | .prctot => "prctot"
  | .qtend_ignore => "qtend_ignore"
  | .ntend_ignore => "ntend_ignore"
  | .mu_c => "mu_c"
  | .lamc => "lamc"
  | .qr_evap_tend => "qr_evap_tend"
  | .opres => "opres"
  | .odz => "odz"
  | .onc_nuceat_tend => "onc_nuceat_tend"
  | .onccn_prescribed => "onccn_prescribed"
  | .oni_activated => "oni_activated"
  | .oinv_qc_relvar => "oinv_qc_relvar"
  | .odpres => "odpres"
  | .oinv_exner => "oinv_exner"
  | .ocld_frac_i => "ocld_frac_i"
  | .ocld_frac_l => "ocld_frac_l"
  | .ocld_frac_r => "ocld_frac_r"
  | .oqc => "oqc"
  | .onc => "onc"
  | .oqr => "oqr"
  | .onr => "onr"
  | .oqi => "oqi"
  | .oqm => "oqm"
  | .oni => "oni"
  | .obm => "obm"
  | .oqv => "oqv"
  | .oth => "oth"
  | .odiag_eff_radius_qc => "odiag_eff_radius_qc"
  | .odiag_eff_radius_qi => "odiag_eff_radius_qi"
  | .odiag_eff_radius_qr => "odiag_eff_radius_qr"
  | .oqv2qi_depos_tend => "oqv2qi_depos_tend"
  | .orho_qi => "orho_qi"
  | .oprecip_liq_flux => "oprecip_liq_flux"
  | .oprecip_ice_flux => "oprecip_ice_flux"
  | .oprecip_total_tend => "oprecip_total_tend"
  | .onevapr => "onevapr"
  | .odiag_equiv_refl => "odiag_equiv_refl"
  | .oliq_ice_exchange => "oliq_ice_exchange"
  | .ovap_liq_exchange => "ovap_liq_exchange"
  | .ovap_ice_exchange => "ovap_ice_exchange"
  | .oqr2qv_evap => "oqr2qv_evap"
  | .oqi2qv_sublim => "oqi2qv_sublim"
  | .oqc2qr_accret => "oqc2qr_accret"
  | .oqc2qr_autoconv => "oqc2qr_autoconv"
  | .oqv2qi_vapdep => "oqv2qi_vapdep"
  | .oqc2qi_berg => "oqc2qi_berg"
  | .oqc2qr_ice_shed => "oqc2qr_ice_shed"
  | .oqc2qi_collect => "oqc2qi_collect"
  | .oqr2qi_collect => "oqr2qi_collect"
  | .oqc2qi_hetero_freeze => "oqc2qi_hetero_freeze"
  | .oqr2qi_immers_freeze => "oqr2qi_immers_freeze"
  | .oqi2qr_melt => "oqi2qr_melt"
  | .oqr_sed => "oqr_sed"
  | .oqc_sed => "oqc_sed"
  | .oqi_sed => "oqi_sed"
  | .oqv_prev => "oqv_prev"
  | .ot_prev => "ot_prev"
  | .ohetfrz_immersion_nucleation_tend => "ohetfrz_immersion_nucleation_tend"
  | .ohetfrz_contact_nucleation_tend => "ohetfrz_contact_nucleation_tend"
  | .ohetfrz_deposition_nucleation_tend => "ohetfrz_deposition_nucleation_tend"

/-- The 43 names passed to `take_many_and_reset<43>`, in order. -/
def take_names : List String :=
  ["mu_r", "T_atm", "lamr", "logn0r", "nu", "cdist", "cdist1", "cdistr", "inv_cld_frac_i",
   "inv_cld_frac_l", "inv_cld_frac_r", "qc_incld", "qr_incld", "qi_incld", "qm_incld",
   "nc_incld", "nr_incld", "ni_incld", "bm_incld", "inv_dz", "inv_rho", "ze_ice", "ze_rain",
   "prec", "rho", "rhofacr", "rhofaci", "acn", "qv_sat_l", "qv_sat_i", "sup", "qv_supersat_i",
   "tmparr1", "exner", "diag_vm_qi", "diag_diam_qi", "pratot", "prctot", "qtend_ignore",
   "ntend_ignore", "mu_c", "lamc", "qr_evap_tend"]

/-- The 43 view variables passed to `take_many_and_reset<43>`, in order. -/
def take_ptrs : List Var :=
  [Var.mu_r, Var.T_atm, Var.lamr, Var.logn0r, Var.nu, Var.cdist, Var.cdist1, Var.cdistr,
   Var.inv_cld_frac_i, Var.inv_cld_frac_l, Var.inv_cld_frac_r, Var.qc_incld, Var.qr_incld,
   Var.qi_incld, Var.qm_incld, Var.nc_incld, Var.nr_incld, Var.ni_incld, Var.bm_incld,
   Var.inv_dz, Var.inv_rho, Var.ze_ice, Var.ze_rain, Var.prec, Var.rho, Var.rhofacr,
   Var.rhofaci, Var.acn, Var.qv_sat_l, Var.qv_sat_i, Var.sup, Var.qv_supersat_i,
   Var.tmparr1, Var.exner, Var.diag_vm_qi, Var.diag_diam_qi, Var.pratot, Var.prctot,
   Var.qtend_ignore, Var.ntend_ignore, Var.mu_c, Var.lamc, Var.qr_evap_tend]

/-- The array `zero_init` built by `p3_main_internal`. -/
def zero_init : List Var :=
  [Var.mu_r, Var.lamr, Var.logn0r, Var.nu, Var.cdist, Var.cdist1, Var.cdistr, Var.qc_incld,
   Var.qr_incld, Var.qi_incld, Var.qm_incld, Var.nc_incld, Var.nr_incld, Var.ni_incld,
   Var.bm_incld, Var.inv_rho, Var.prec, Var.rho, Var.rhofacr, Var.rhofaci, Var.acn,
   Var.qv_sat_l, Var.qv_sat_i, Var.sup, Var.qv_supersat_i, Var.tmparr1, Var.qtend_ignore,
   Var.ntend_ignore, Var.mu_c, Var.lamc, Var.orho_qi, Var.oqv2qi_depos_tend,
   Var.oprecip_total_tend, Var.onevapr, Var.oprecip_liq_flux, Var.oprecip_ice_flux]

/-- The view arguments of the call of `p3_main_part1`, in call order. -/
def p3_main_part1_views : List Var :=
  [Var.opres, Var.odpres, Var.odz, Var.onc_nuceat_tend, Var.onccn_prescribed,
   Var.oinv_exner, Var.exner, Var.inv_cld_frac_l, Var.inv_cld_frac_i, Var.inv_cld_frac_r,
   Var.T_atm, Var.rho, Var.inv_rho, Var.qv_sat_l, Var.qv_sat_i, Var.qv_supersat_i,
   Var.rhofacr, Var.rhofaci, Var.acn, Var.oqv, Var.oth, Var.oqc, Var.onc, Var.oqr, Var.onr,
   Var.oqi, Var.oni, Var.oqm, Var.obm, Var.qc_incld, Var.qr_incld, Var.qi_incld,
   Var.qm_incld, Var.nc_incld, Var.nr_incld, Var.ni_incld, Var.bm_incld]

/-- The view arguments of the call of `p3_main_part2`, in call order. -/
def p3_main_part2_views : List Var :=
  [Var.ohetfrz_immersion_nucleation_tend, Var.ohetfrz_contact_nucleation_tend,
   Var.ohetfrz_deposition_nucleation_tend, Var.opres, Var.odpres, Var.odz,
   Var.onc_nuceat_tend, Var.oinv_exner, Var.exner, Var.inv_cld_frac_l, Var.inv_cld_frac_i,
   Var.inv_cld_frac_r, Var.oni_activated, Var.oinv_qc_relvar, Var.ocld_frac_i,
   Var.ocld_frac_l, Var.ocld_frac_r, Var.oqv_prev, Var.ot_prev, Var.T_atm, Var.rho,
   Var.inv_rho, Var.qv_sat_l, Var.qv_sat_i, Var.qv_supersat_i, Var.rhofacr, Var.rhofaci,
   Var.acn, Var.oqv, Var.oth, Var.oqc, Var.onc, Var.oqr, Var.onr, Var.oqi, Var.oni, Var.oqm,
   Var.obm, Var.qc_incld, Var.qr_incld, Var.qi_incld, Var.qm_incld, Var.nc_incld,
   Var.nr_incld, Var.ni_incld, Var.bm_incld, Var.mu_c, Var.nu, Var.lamc, Var.cdist,
   Var.cdist1, Var.cdistr, Var.mu_r, Var.lamr, Var.logn0r, Var.oqv2qi_depos_tend,
   Var.oprecip_total_tend, Var.onevapr, Var.qr_evap_tend, Var.ovap_liq_exchange,
   Var.ovap_ice_exchange, Var.oliq_ice_exchange, Var.oqr2qv_evap, Var.oqi2qv_sublim,
   Var.oqc2qr_accret, Var.oqc2qr_autoconv, Var.oqv2qi_vapdep, Var.oqc2qi_berg,
   Var.oqc2qr_ice_shed, Var.oqc2qi_collect, Var.oqr2qi_collect, Var.oqc2qi_hetero_freeze,
   Var.oqr2qi_immers_freeze, Var.oqi2qr_melt, Var.pratot, Var.prctot]

/-- The view arguments of the call of `cloud_sedimentation`, in call order. -/
def cloud_sedimentation_views : List Var :=
  [Var.qc_incld, Var.rho, Var.inv_rho, Var.ocld_frac_l, Var.acn, Var.inv_dz, Var.oqc,
   Var.onc, Var.nc_incld, Var.mu_c, Var.lamc, Var.oqc_sed, Var.ntend_ignore]

/-- The view arguments of the call of `rain_sedimentation`, in call order. -/
def rain_sedimentation_views : List Var :=
  [Var.rho, Var.inv_rho, Var.rhofacr, Var.ocld_frac_r, Var.inv_dz, Var.qr_incld, Var.oqr,
   Var.onr, Var.nr_incld, Var.mu_r, Var.lamr, Var.oprecip_liq_flux, Var.oqr_sed,
   Var.ntend_ignore]

/-- The view arguments of the call of `ice_sedimentation`, in call order. -/
def ice_sedimentation_views : List Var :=
  [Var.rho, Var.inv_rho, Var.rhofaci, Var.ocld_frac_i, Var.inv_dz, Var.oqi, Var.qi_incld,
   Var.oni, Var.ni_incld, Var.oqm, Var.qm_incld, Var.obm, Var.bm_incld, Var.oqi_sed,
   Var.ntend_ignore]

/-- The view arguments of the call of `homogeneous_freezing`, in call order. -/
def homogeneous_freezing_views : List Var :=
  [Var.T_atm, Var.oinv_exner, Var.oqc, Var.onc, Var.oqr, Var.onr, Var.oqi, Var.oni, Var.oqm,
   Var.obm, Var.oth]

/-- The view arguments of the call of `p3_main_part3`, in call order. -/
def p3_main_part3_views : List Var :=
  [Var.oinv_exner, Var.ocld_frac_l, Var.ocld_frac_r, Var.ocld_frac_i, Var.rho, Var.inv_rho,
   Var.rhofaci, Var.oqv, Var.oth, Var.oqc, Var.onc, Var.oqr, Var.onr, Var.oqi, Var.oni,
   Var.oqm, Var.obm, Var.mu_c, Var.nu, Var.lamc, Var.mu_r, Var.lamr, Var.ovap_liq_exchange,
   Var.ze_rain, Var.ze_ice, Var.diag_vm_qi, Var.odiag_eff_radius_qi, Var.diag_diam_qi,
   Var.orho_qi, Var.odiag_equiv_refl, Var.odiag_eff_radius_qc, Var.odiag_eff_radius_qr]

/-- The arguments of the call of `p3_main_init` in `p3_main_internal`. -/
def init_args : InitArgs Var :=
  { cld_frac_i := .ocld_frac_i
    cld_frac_l := .ocld_frac_l
    cld_frac_r := .ocld_frac_r
    inv_exner := .oinv_exner
    th_atm := .oth
    dz := .odz
    diag_equiv_reflectivity := .odiag_equiv_refl
    ze_ice := .ze_ice
    ze_rain := .ze_rain
    diag_eff_radius_qc := .odiag_eff_radius_qc
    diag_eff_radius_qi := .odiag_eff_radius_qi
    diag_eff_radius_qr := .odiag_eff_radius_qr
    inv_cld_frac_i := .inv_cld_frac_i
    inv_cld_frac_l := .inv_cld_frac_l
    inv_cld_frac_r := .inv_cld_frac_r
    exner := .exner
    T_atm := .T_atm
    qv := .oqv
    inv_dz := .inv_dz
    zero_init := zero_init }

/-! ## Shared inputs and the stage routines -/

/-- The runtime options: the two fields read by `p3_main_internal`, and the
remaining options, which only the stage routines read. -/
structure P3Runtime (O : Type) where
  do_ice_production : Bool
  max_total_ni : Scalar
  other : O

/-- The scalar fields of `P3Infrastructure` read by `p3_main_internal`. -/
structure P3Infrastructure where
  dt : Scalar
  it : Int
  predictNc : Bool
  prescribedCCN : Bool

/-- The lookup tables handed to the stage routines; `T` is the type of a table. -/
structure P3LookupTables (T : Type) where
  dnu_table_vals : T
  ice_table_vals : T
  collect_table_vals : T
  revap_table_vals : T
  vn_table_vals : T
  vm_table_vals : T

/-- The routines called by `p3_main_internal` and defined elsewhere.  Each one
takes the non-view arguments of its call in call order, then the contents of
its view arguments in call order, and returns the new contents of those views
(and of the flags or accumulator it receives by reference, which come last).
The `team` and `workspace` arguments carry no column data and are left out.

Modelled from the spec: `p3_main_part1` decides the two activity flags, so it
returns them without reading their previous contents. -/
structure Functions (n : Nat) (O T : Type) where
  npack : Nat → Nat
  p3_main_part1 : (nk : Nat) → (predictNc prescribedCCN : Bool) → (dt : Scalar) →
    P3Runtime O → List (View n) → List (View n) × Bool × Bool
  p3_main_part2 : (nk_pack : Nat) → (max_total_ni : Scalar) →
    (predictNc prescribedCCN : Bool) → (dt inv_dt : Scalar) →
    (dnu_table_vals ice_table_vals collect_table_vals revap_table_vals : T) →
    (nk : Nat) → P3Runtime O → List (View n) → (hydrometeorsPresent : Bool) →
    List (View n) × Bool
  cloud_sedimentation : (dnu_table_vals : T) → (nk : Nat) → (ktop kbot kdir : Int) →
    (dt inv_dt : Scalar) → (predictNc : Bool) → List (View n) → (precip_liq_surf : Scalar) →
    List (View n) × Scalar
  rain_sedimentation : (vn_table_vals vm_table_vals : T) → (nk : Nat) →
    (ktop kbot kdir : Int) → (dt inv_dt : Scalar) → P3Runtime O → List (View n) →
    (precip_liq_surf : Scalar) → List (View n) × Scalar
  ice_sedimentation : (nk : Nat) → (ktop kbot kdir : Int) → (dt inv_dt : Scalar) →
    (ice_table_vals : T) → P3Runtime O → List (View n) → (precip_ice_surf : Scalar) →
    List (View n) × Scalar
  homogeneous_freezing : (nk : Nat) → (ktop kbot kdir : Int) → List (View n) → List (View n)
  p3_main_part3 : (nk_pack : Nat) → (max_total_ni : Scalar) →
    (dnu_table_vals ice_table_vals : T) → P3Runtime O → List (View n) → List (View n)

/-- Stores the views returned by a routine back through the handles it was
called with, position by position. -/
def writeBack {H : Type} [DecidableEq H] {n : Nat} :
    List H → List (View n) → Store H n → Store H n
  | h :: hs, v :: vs, st => writeBack hs vs (Function.update st h v)
  | _, _, st => st

/-! ## The column task -/

/-- The stages of a column task. -/
inductive Stage where
  | Init | Part1 | Part2 | CloudSed | RainSed | IceSed | HomFreeze | Part3
  deriving DecidableEq

/-- What one column task can reach: its views, the column entries
`precip_liq_surf(i)` and `precip_ice_surf(i)`, the two scratch-pad flags, and
a record of the stage calls made so far. -/
structure Mem (n : Nat) where
  view : Store Var n
  precip_liq_surf : Scalar
  precip_ice_surf : Scalar
  nucleationPossible : Bool
  hydrometeorsPresent : Bool
  stages : List Stage

/-- Modelled from the spec: `take_many_and_reset` belongs to the workspace
pool, which is defined outside `p3_main_impl.hpp`; it hands out one
zero-initialized buffer per requested variable.  The record of stage calls
starts empty here. -/
def take_many_and_reset {n : Nat} (ptrs : List Var) (m : Mem n) : Mem n :=
  { m with
    view := fun v => if v ∈ ptrs then (fun _ => Spack.splat 0) else m.view v
    stages := [] }

/-- The constant `kdir`. -/
def kdir : Int := -1

/-- The constant `ktop`. -/
def ktop (nk : Nat) : Int := if kdir = -1 then 0 else (nk : Int) - 1

/-- The constant `kbot`. -/
def kbot (nk : Nat) : Int := if kdir = -1 then (nk : Int) - 1 else 0

/-- The call of `p3_main_init`. -/
def call_p3_main_init {n : Nat} (nk_pack : Nat) (m : Mem n) : Mem n :=
  let r := p3_main_init nk_pack init_args m.view m.precip_liq_surf m.precip_ice_surf
  { m with
    view := r.store
    precip_liq_surf := r.precip_liq_surf
    precip_ice_surf := r.precip_ice_surf
    stages := m.stages ++ [Stage.Init] }

/-- The call of `p3_main_part1`. -/
def call_p3_main_part1 {n : Nat} {O T : Type} (fns : Functions n O T)
    (runtime_options : P3Runtime O) (infrastructure : P3Infrastructure) (nk : Nat)
    (m : Mem n) : Mem n :=
  let r := fns.p3_main_part1 nk infrastructure.predictNc infrastructure.prescribedCCN
    infrastructure.dt runtime_options (p3_main_part1_views.map m.view)
  { m with
    view := writeBack p3_main_part1_views r.1 m.view
    nucleationPossible := r.2.1
    hydrometeorsPresent := r.2.2
    stages := m.stages ++ [Stage.Part1] }

/-- The call of `p3_main_part2`. -/
def call_p3_main_part2 {n : Nat} {O T : Type} (fns : Functions n O T)
    (runtime_options : P3Runtime O) (infrastructure : P3Infrastructure)
    (lookup_tables : P3LookupTables T) (inv_dt : Scalar) (nk nk_pack : Nat)
    (m : Mem n) : Mem n :=
  let r := fns.p3_main_part2 nk_pack runtime_options.max_total_ni infrastructure.predictNc
    infrastructure.prescribedCCN infrastructure.dt inv_dt lookup_tables.dnu_table_vals
    lookup_tables.ice_table_vals lookup_tables.collect_table_vals
    lookup_tables.revap_table_vals nk runtime_options (p3_main_part2_views.map m.view)
    m.hydrometeorsPresent
  { m with
    view := writeBack p3_main_part2_views r.1 m.view
    hydrometeorsPresent := r.2
    stages := m.stages ++ [Stage.Part2] }

/-- The call of `cloud_sedimentation`. -/
def call_cloud_sedimentation {n : Nat} {O T : Type} (fns : Functions n O T)
    (infrastructure : P3Infrastructure) (lookup_tables : P3LookupTables T)
    (inv_dt : Scalar) (nk : Nat) (m : Mem n) : Mem n :=
  let r := fns.cloud_sedimentation lookup_tables.dnu_table_vals nk (ktop nk) (kbot nk) kdir
    infrastructure.dt inv_dt infrastructure.predictNc (cloud_sedimentation_views.map m.view)
    m.precip_liq_surf
  { m with
    view := writeBack cloud_sedimentation_views r.1 m.view
    precip_liq_surf := r.2
    stages := m.stages ++ [Stage.CloudSed] }

/-- The call of `rain_sedimentation`. -/
def call_rain_sedimentation {n : Nat} {O T : Type} (fns : Functions n O T)
    (runtime_options : P3Runtime O) (infrastructure : P3Infrastructure)
    (lookup_tables : P3LookupTables T) (inv_dt : Scalar) (nk : Nat) (m : Mem n) : Mem n :=
  let r := fns.rain_sedimentation lookup_tables.vn_table_vals lookup_tables.vm_table_vals nk
    (ktop nk) (kbot nk) kdir infrastructure.dt inv_dt runtime_options
    (rain_sedimentation_views.map m.view) m.precip_liq_surf
  { m with
    view := writeBack rain_sedimentation_views r.1 m.view
    precip_liq_surf := r.2
    stages := m.stages ++ [Stage.RainSed] }

/-- The call of `ice_sedimentation`. -/
def call_ice_sedimentation {n : Nat} {O T : Type} (fns : Functions n O T)
    (runtime_options : P3Runtime O) (infrastructure : P3Infrastructure)
    (lookup_tables : P3LookupTables T) (inv_dt : Scalar) (nk : Nat) (m : Mem n) : Mem n :=
  let r := fns.ice_sedimentation nk (ktop nk) (kbot nk) kdir infrastructure.dt inv_dt
    lookup_tables.ice_table_vals runtime_options (ice_sedimentation_views.map m.view)
    m.precip_ice_surf
  { m with
    view := writeBack ice_sedimentation_views r.1 m.view
    precip_ice_surf := r.2
    stages := m.stages ++ [Stage.IceSed] }

/-- The call of `homogeneous_freezing`. -/
def call_homogeneous_freezing {n : Nat} {O T : Type} (fns : Functions n O T) (nk : Nat)
    (m : Mem n) : Mem n :=
  let r := fns.homogeneous_freezing nk (ktop nk) (kbot nk) kdir
    (homogeneous_freezing_views.map m.view)
  { m with
    view := writeBack homogeneous_freezing_views r m.view
    stages := m.stages ++ [Stage.HomFreeze] }

/-- The call of `p3_main_part3`. -/
def call_p3_main_part3 {n : Nat} {O T : Type} (fns : Functions n O T)
    (runtime_options : P3Runtime O) (lookup_tables : P3LookupTables T) (nk_pack : Nat)
    (m : Mem n) : Mem n :=
  let r := fns.p3_main_part3 nk_pack runtime_options.max_total_ni
    lookup_tables.dnu_table_vals lookup_tables.ice_table_vals runtime_options
    (p3_main_part3_views.map m.view)
  { m with
    view := writeBack p3_main_part3_views r m.view
    stages := m.stages ++ [Stage.Part3] }

/-- The block compiled when `NDEBUG` is not defined: `tmparr1(k) = oth(k) * exner(k)`
for every `k < nk_pack`, followed by `check_values`.

Modelled from the spec: `check_values` is defined outside `p3_main_impl.hpp`;
it only reports, and with `debug_ABORT = false` the task continues. -/
def debug_block {n : Nat} (nk_pack : Nat) (m : Mem n) : Mem n :=
  { m with
    view := (List.range nk_pack).foldl
      (fun st k => setAt st Var.tmparr1 k (Spack.mul (st Var.oth k) (st Var.exner k))) m.view }

/-- The body of the `"p3 main loop"` lambda: the task of one column, from the
workspace request to the end of the lambda.  `ndebug` tells whether `NDEBUG`
is defined; `inv_dt` is computed before the loop. -/
def p3_main_column {n : Nat} {O T : Type} (fns : Functions n O T)
    (runtime_options : P3Runtime O) (infrastructure : P3Infrastructure)
    (lookup_tables : P3LookupTables T) (ndebug : Bool) (nk : Nat) (m : Mem n) : Mem n :=
  let nk_pack := fns.npack nk
  let inv_dt := 1 / infrastructure.dt
  let do_ice_production := runtime_options.do_ice_production
  let m := take_many_and_reset take_ptrs m
  let m := call_p3_main_init nk_pack m
  let m := call_p3_main_part1 fns runtime_options infrastructure nk m
  if !(m.nucleationPossible || m.hydrometeorsPresent) then m
  else
    let m := call_p3_main_part2 fns runtime_options infrastructure lookup_tables inv_dt nk
      nk_pack m
    if !m.hydrometeorsPresent then m
    else
      let m := call_cloud_sedimentation fns infrastructure lookup_tables inv_dt nk m
      let m := call_rain_sedimentation fns runtime_options infrastructure lookup_tables
        inv_dt nk m
      let m := call_ice_sedimentation fns runtime_options infrastructure lookup_tables
        inv_dt nk m
      let m := if do_ice_production then call_homogeneous_freezing fns nk m else m
      let m := call_p3_main_part3 fns runtime_options lookup_tables nk_pack m
      if ndebug then m else debug_block nk_pack m

/-- The parallel loop over teams, run in the order `order`: team `i` works on
the memory of column `i` only. -/
def p3_main_loop {n : Nat} {O T : Type} (fns : Functions n O T)
    (runtime_options : P3Runtime O) (infrastructure : P3Infrastructure)
    (lookup_tables : P3LookupTables T) (ndebug : Bool) (nk : Nat)
    (order : List Nat) (g : Nat → Mem n) : Nat → Mem n :=
  order.foldl (fun g i => Function.update g i
    (p3_main_column fns runtime_options infrastructure lookup_tables ndebug nk (g i))) g

/-- The routine `p3_main_internal` on `nj` columns of `nk` levels (the returned
elapsed time is left out). -/
def p3_main_internal {n : Nat} {O T : Type} (fns : Functions n O T)
    (runtime_options : P3Runtime O) (infrastructure : P3Infrastructure)
    (lookup_tables : P3LookupTables T) (ndebug : Bool) (nj nk : Nat)
    (g : Nat → Mem n) : Nat → Mem n :=
  p3_main_loop fns runtime_options infrastructure lookup_tables ndebug nk (List.range nj) g

/-! ## Intermediate states of a column task -/

/-- The state of a column task right after its call of `p3_main_init`. -/
def after_init {n : Nat} {O T : Type} (fns : Functions n O T) (nk : Nat) (m : Mem n) : Mem n :=
  call_p3_main_init (fns.npack nk) (take_many_and_reset take_ptrs m)

/-- The state of a column task right after its call of `p3_main_part1`. -/
def after_part1 {n : Nat} {O T : Type} (fns : Functions n O T)
    (runtime_options : P3Runtime O) (infrastructure : P3Infrastructure) (nk : Nat)
    (m : Mem n) : Mem n :=
  call_p3_main_part1 fns runtime_options infrastructure nk (after_init fns nk m)

/-- The state of a column task right after its call of `p3_main_part2`. -/
def after_part2 {n : Nat} {O T : Type} (fns : Functions n O T)
    (runtime_options : P3Runtime O) (infrastructure : P3Infrastructure)
    (lookup_tables : P3LookupTables T) (nk : Nat) (m : Mem n) : Mem n :=
  call_p3_main_part2 fns runtime_options infrastructure lookup_tables (1 / infrastructure.dt)
    nk (fns.npack nk) (after_part1 fns runtime_options infrastructure nk m)

/-- The state of a column task after all its stage calls, `p3_main_part3`
included (the end of the lambda when `NDEBUG` is defined). -/
def after_part3 {n : Nat} {O T : Type} (fns : Functions n O T)
    (runtime_options : P3Runtime O) (infrastructure : P3Infrastructure)
    (lookup_tables : P3LookupTables T) (nk : Nat) (m : Mem n) : Mem n :=
  call_p3_main_part3 fns runtime_options lookup_tables (fns.npack nk)
    ((if runtime_options.do_ice_production then call_homogeneous_freezing fns nk else id)
    (call_ice_sedimentation fns runtime_options infrastructure lookup_tables
      (1 / infrastructure.dt) nk
    (call_rain_sedimentation fns runtime_options infrastructure lookup_tables
      (1 / infrastructure.dt) nk
    (call_cloud_sedimentation fns infrastructure lookup_tables (1 / infrastructure.dt) nk
    (after_part2 fns runtime_options infrastructure lookup_tables nk m)))))

/-! ## Sample inputs -/

/-- A sample memory of packs of two lanes: `oqv` holds `-3`, every other view `2`. -/
def sampleStore : Store Var 2 :=
  fun v _ _ => if v = Var.oqv then -3 else 2

/-- A sample column memory built on `sampleStore`, with stale accumulators and flags. -/
def sampleMem : Mem 2 :=
  { view := sampleStore
    precip_liq_surf := 5
    precip_ice_surf := 7
    nucleationPossible := true
    hydrometeorsPresent := true
    stages := [] }

/-- Sample runtime options, with ice production switched on. -/
def sampleRuntime : P3Runtime Unit :=
  { do_ice_production := true, max_total_ni := 1000, other := () }

/-- Sample infrastructure scalars. -/
def sampleInfrastructure : P3Infrastructure :=
  { dt := 300, it := 1, predictNc := true, prescribedCCN := false }

/-- Sample lookup tables (tables without content). -/
def sampleTables : P3LookupTables Unit :=
  { dnu_table_vals := (), ice_table_vals := (), collect_table_vals := (),
    revap_table_vals := (), vn_table_vals := (), vm_table_vals := () }

/-- Sample stage routines that leave every view as it is; `p3_main_part1`
reports `nucleationPossible = nuc` and `hydrometeorsPresent = hyd1`, and
`p3_main_part2` reports `hydrometeorsPresent = hyd2`.  Packs have two lanes. -/
def sampleFunctions (nuc hyd1 hyd2 : Bool) : Functions 2 Unit Unit :=
  { npack := fun nk => (nk + 1) / 2
    p3_main_part1 := fun _ _ _ _ _ vs => (vs, nuc, hyd1)
    p3_main_part2 := fun _ _ _ _ _ _ _ _ _ _ _ _ vs _ => (vs, hyd2)
    cloud_sedimentation := fun _ _ _ _ _ _ _ _ vs precip_liq_surf => (vs, precip_liq_surf + 1)
    rain_sedimentation := fun _ _ _ _ _ _ _ _ _ vs precip_liq_surf => (vs, precip_liq_surf + 1)
    ice_sedimentation := fun _ _ _ _ _ _ _ _ vs precip_ice_surf => (vs, precip_ice_surf + 1)
    homogeneous_freezing := fun _ _ _ _ vs => vs
    p3_main_part3 := fun _ _ _ _ _ vs => vs }

/-- Sample columns: every column holds `sampleMem`. -/
def sampleColumns : Nat → Mem 2 :=
  fun _ => sampleMem

/-- Sample columns that agree with `sampleColumns` only on the input slices of
column 1: column 1 has other accumulators, flags and workspace contents, and
every other column holds zeros. -/
def otherColumns : Nat → Mem 2 :=
  fun c =>
    if c = 1 then
      { sampleMem with
        view := fun v => if v ∈ take_ptrs then (fun _ _ => 11) else sampleMem.view v
        precip_liq_surf := 9
        nucleationPossible := false }
    else { sampleMem with view := fun _ _ _ => 0 }

/-- A sample permutation of three columns: the rotation `0, 1, 2 ↦ 1, 2, 0`. -/
def sampleRotation : Nat → Nat :=
  fun c => if c < 3 then (c + 1) % 3 else c

/-- The same arguments with an empty `zero_init`: `p3_main_init` without its
zeroing loop, the yardstick for "not overwritten by the zeroing". -/
def InitArgs.withoutZeroing {H : Type} (a : InitArgs H) : InitArgs H :=
  { a with zero_init := [] }

/-- Sample arguments in which one buffer is in both sets: the arguments of the
call in `p3_main_internal`, with `odiag_equiv_refl` added to `zero_init`. -/
def aliasedArgs : InitArgs Var :=
  { init_args with zero_init := Var.odiag_equiv_refl :: zero_init }

/-! ## Lemmas on `p3_main_init` -/

section InitLemmas

variable {H : Type} [DecidableEq H] {n : Nat}

theorem setAt_same_level (st : Store H n) (h : H) (k : Nat) (x : Spack n) (h' : H) :
    setAt st h k x h' k = if h' = h then x else st h' k := by
  unfold setAt
  by_cases e : h' = h
  · subst e; simp
  · simp [Function.update_noteq e, e]

theorem setAt_other_level (st : Store H n) (h : H) (k : Nat) (x : Spack n) (h' : H)
    {k' : Nat} (hk : k' ≠ k) : setAt st h k x h' k' = st h' k' := by
  unfold setAt
  by_cases e : h' = h
  · subst e; simp [Function.update_noteq hk]
  · simp [Function.update_noteq e]

theorem zero_init_loop_same_level (zs : List H) (k : Nat) (st : Store H n) (h : H) :
    zero_init_loop zs k st h k = if h ∈ zs then Spack.splat 0 else st h k := by
  unfold zero_init_loop
  induction zs generalizing st with
  | nil => simp
  | cons z zs ih =>
    rw [List.foldl_cons, ih, setAt_same_level]
    by_cases e1 : h ∈ zs
    · simp [e1]
    · by_cases e2 : h = z
      · simp [e2]
      · simp [e1, e2]

theorem zero_init_loop_other_level (zs : List H) (k : Nat) (st : Store H n) (h : H)
    {k' : Nat} (hk : k' ≠ k) : zero_init_loop zs k st h k' = st h k' := by
  unfold zero_init_loop
  induction zs generalizing st with
  | nil => simp
  | cons z zs ih => rw [List.foldl_cons, ih, setAt_other_level _ _ _ _ _ hk]

theorem p3_main_init_body_other_level (a : InitArgs H) (k : Nat) (st : Store H n) (h : H)
    {k' : Nat} (hk : k' ≠ k) : p3_main_init_body a k st h k' = st h k' := by
  simp only [p3_main_init_body, zero_init_loop_other_level _ _ _ _ hk,
    setAt_other_level _ _ _ _ _ hk]

theorem p3_main_init_body_local (a : InitArgs H) (k : Nat) (st st' : Store H n)
    (hag : ∀ h, st h k = st' h k) (h : H) :
    p3_main_init_body a k st h k = p3_main_init_body a k st' h k := by
  simp only [p3_main_init_body, zero_init_loop_same_level, setAt_same_level, hag]

theorem p3_main_init_loop_succ (N : Nat) (a : InitArgs H) (st : Store H n) :
    p3_main_init_loop (N + 1) a st = p3_main_init_body a N (p3_main_init_loop N a st) := by
  simp [p3_main_init_loop, List.range_succ, List.foldl_append]

theorem p3_main_init_loop_untouched (N : Nat) (a : InitArgs H) (st : Store H n) (h : H)
    {k : Nat} (hk : N ≤ k) : p3_main_init_loop N a st h k = st h k := by
  induction N with
  | zero => simp [p3_main_init_loop]
  | succ N ih =>
    rw [p3_main_init_loop_succ, p3_main_init_body_other_level _ _ _ _ (by omega)]
    exact ih (by omega)

theorem p3_main_init_loop_level (N : Nat) (a : InitArgs H) (st : Store H n) (h : H)
    {k : Nat} (hk : k < N) : p3_main_init_loop N a st h k = p3_main_init_body a k st h k := by
  induction N with
  | zero => omega
  | succ N ih =>
    rw [p3_main_init_loop_succ]
    by_cases e : k = N
    · subst e
      exact p3_main_init_body_local a k _ st
        (fun h' => p3_main_init_loop_untouched k a st h' (Nat.le_refl k)) h
    · rw [p3_main_init_body_other_level _ _ _ _ e]
      exact ih (by omega)

theorem p3_main_init_body_zeroed (a : InitArgs H) (k : Nat) (st : Store H n) {h : H}
    (hz : h ∈ a.zero_init) : p3_main_init_body a k st h k = Spack.splat 0 := by
  simp only [p3_main_init_body, zero_init_loop_same_level, hz, if_true]

theorem p3_main_init_body_frame (a : InitArgs H) (k : Nat) (st : Store H n) {h : H}
    (ho : h ∉ a.outputs) (hz : h ∉ a.zero_init) : p3_main_init_body a k st h k = st h k := by
  simp only [InitArgs.outputs, List.mem_cons, List.mem_singleton, List.not_mem_nil,
    or_false, not_or] at ho
  obtain ⟨h1, h2, h3, h4, h5, h6, h7, h8, h9, h10, h11, h12, h13⟩ := ho
  simp only [p3_main_init_body, zero_init_loop_same_level, setAt_same_level, hz, if_false,
    h1, h2, h3, h4, h5, h6, h7, h8, h9, h10, h11, h12, h13]

theorem p3_main_init_body_defaults (a : InitArgs H) (ha : a.OutputsDistinct) (k : Nat)
    (st : Store H n) :
    p3_main_init_body a k st a.diag_equiv_reflectivity k = Spack.splat (-99) ∧
    p3_main_init_body a k st a.ze_ice k = Spack.splat (1 / 10 ^ 22) ∧
    p3_main_init_body a k st a.ze_rain k = Spack.splat (1 / 10 ^ 22) ∧
    p3_main_init_body a k st a.diag_eff_radius_qc k = Spack.splat (10 / 10 ^ 6) ∧
    p3_main_init_body a k st a.diag_eff_radius_qi k = Spack.splat (25 / 10 ^ 6) ∧
    p3_main_init_body a k st a.diag_eff_radius_qr k = Spack.splat (500 / 10 ^ 6) := by
  obtain ⟨hnd, hz⟩ := ha
  simp only [InitArgs.outputs, List.forall_mem_cons, List.not_mem_nil, false_imp_iff,
    implies_true, and_true] at hz
  simp only [InitArgs.outputs, List.nodup_cons, List.mem_cons, List.mem_singleton,
    List.not_mem_nil, or_false, not_or, List.nodup_nil, and_true,
    not_false_eq_true] at hnd
  simp only [p3_main_init_body, zero_init_loop_same_level, setAt_same_level, hnd, hz,
    if_true, if_false, and_self]

theorem p3_main_init_body_qv (a : InitArgs H) (ha : a.OutputsDistinct) (k : Nat)
    (st : Store H n) :
    p3_main_init_body a k st a.qv k = Spack.smax (st a.qv k) 0 := by
  obtain ⟨hnd, hz⟩ := ha
  have hq : (a.qv :: ([a.diag_equiv_reflectivity, a.ze_ice, a.ze_rain, a.diag_eff_radius_qc,
      a.diag_eff_radius_qi, a.diag_eff_radius_qr, a.inv_cld_frac_i, a.inv_cld_frac_l,
      a.inv_cld_frac_r, a.exner, a.T_atm] ++ [a.inv_dz])).Nodup :=
    (List.perm_middle.nodup_iff).mp hnd
  simp only [InitArgs.outputs, List.forall_mem_cons, List.not_mem_nil, false_imp_iff,
    implies_true, and_true] at hz
  simp only [List.nodup_cons, List.mem_cons, List.mem_singleton,
    List.not_mem_nil, or_false, not_or, List.nodup_nil, and_true,
    not_false_eq_true, List.cons_append, List.nil_append] at hq
  simp only [p3_main_init_body, zero_init_loop_same_level, setAt_same_level, hq.1, hz,
    if_true, if_false]

theorem p3_main_init_body_derived (a : InitArgs H) (ha : a.OutputsDistinct)
    (hi : a.InputsKept) (k : Nat) (st : Store H n) :
    p3_main_init_body a k st a.inv_cld_frac_i k = Spack.sdiv 1 (st a.cld_frac_i k) ∧
    p3_main_init_body a k st a.inv_cld_frac_l k = Spack.sdiv 1 (st a.cld_frac_l k) ∧
    p3_main_init_body a k st a.inv_cld_frac_r k = Spack.sdiv 1 (st a.cld_frac_r k) ∧
    p3_main_init_body a k st a.exner k = Spack.sdiv 1 (st a.inv_exner k) ∧
    p3_main_init_body a k st a.T_atm k =
      Spack.mul (st a.th_atm k) (Spack.sdiv 1 (st a.inv_exner k)) ∧
    p3_main_init_body a k st a.inv_dz k = Spack.sdiv 1 (st a.dz k) := by
  obtain ⟨hnd, hz⟩ := ha
  simp only [InitArgs.outputs, List.forall_mem_cons, List.not_mem_nil, false_imp_iff,
    implies_true, and_true] at hz
  simp only [InitArgs.outputs, List.nodup_cons, List.mem_cons, List.mem_singleton,
    List.not_mem_nil, or_false, not_or, List.nodup_nil, and_true,
    not_false_eq_true] at hnd
  simp only [InitArgs.InputsKept, InitArgs.inputs, List.forall_mem_cons, List.not_mem_nil,
    false_imp_iff, implies_true, and_true] at hi
  simp only [InitArgs.outputs, List.mem_cons, List.mem_singleton, List.not_mem_nil,
    or_false, not_or] at hi
  simp only [p3_main_init_body, zero_init_loop_same_level, setAt_same_level, hnd, hz, hi,
    if_true, if_false, and_self]

theorem p3_main_init_loop_frame (N : Nat) (a : InitArgs H) (st : Store H n) {h : H}
    (ho : h ∉ a.outputs) (hz : h ∉ a.zero_init) : p3_main_init_loop N a st h = st h := by
  funext k
  by_cases hk : k < N
  · rw [p3_main_init_loop_level N a st h hk, p3_main_init_body_frame a k st ho hz]
  · exact p3_main_init_loop_untouched N a st h (by omega)

theorem p3_main_init_loop_qv (N : Nat) (a : InitArgs H) (ha : a.OutputsDistinct)
    (st : Store H n) {k : Nat} (hk : k < N) (l : Fin n) :
    p3_main_init_loop N a st a.qv k l = max (st a.qv k l) 0 := by
  rw [p3_main_init_loop_level N a st _ hk, p3_main_init_body_qv a ha k st]
  rfl

theorem p3_main_init_loop_reciprocals (N : Nat) (a : InitArgs H) (ha : a.OutputsDistinct)
    (hi : a.InputsKept) (st : Store H n) {k : Nat} (hk : k < N) (l : Fin n)
    (hci : st a.cld_frac_i k l ≠ 0) (hcl : st a.cld_frac_l k l ≠ 0)
    (hcr : st a.cld_frac_r k l ≠ 0) (hex : st a.inv_exner k l ≠ 0) (hdz : st a.dz k l ≠ 0) :
    p3_main_init_loop N a st a.inv_cld_frac_i k l * p3_main_init_loop N a st a.cld_frac_i k l
      = 1 ∧
    p3_main_init_loop N a st a.inv_cld_frac_l k l * p3_main_init_loop N a st a.cld_frac_l k l
      = 1 ∧
    p3_main_init_loop N a st a.inv_cld_frac_r k l * p3_main_init_loop N a st a.cld_frac_r k l
      = 1 ∧
    p3_main_init_loop N a st a.exner k l * p3_main_init_loop N a st a.inv_exner k l = 1 ∧
    p3_main_init_loop N a st a.inv_dz k l * p3_main_init_loop N a st a.dz k l = 1 ∧
    p3_main_init_loop N a st a.T_atm k l
      = p3_main_init_loop N a st a.th_atm k l * p3_main_init_loop N a st a.exner k l ∧
    p3_main_init_loop N a st a.T_atm k l = st a.th_atm k l / st a.inv_exner k l ∧
    (∀ h ∈ a.inputs, p3_main_init_loop N a st h = st h) := by
  have hin : ∀ h ∈ a.inputs, p3_main_init_loop N a st h = st h :=
    fun h hh => p3_main_init_loop_frame N a st (hi h hh).1 (hi h hh).2
  have e1 := hin a.cld_frac_i (by simp [InitArgs.inputs])
  have e2 := hin a.cld_frac_l (by simp [InitArgs.inputs])
  have e3 := hin a.cld_frac_r (by simp [InitArgs.inputs])
  have e4 := hin a.inv_exner (by simp [InitArgs.inputs])
  have e5 := hin a.th_atm (by simp [InitArgs.inputs])
  have e6 := hin a.dz (by simp [InitArgs.inputs])
  obtain ⟨d1, d2, d3, d4, d5, d6⟩ := p3_main_init_body_derived a ha hi k st
  simp only [e1, e2, e3, e4, e5, e6]
  simp only [p3_main_init_loop_level N a st _ hk, d1, d2, d3, d4, d5, d6, Spack.sdiv,
    Spack.mul]
  refine ⟨?_, ?_, ?_, ?_, ?_, ?_, ?_, hin⟩
  · field_simp
  · field_simp
  · field_simp
  · field_simp
  · field_simp
  · trivial
  · field_simp

theorem p3_main_init_body_withoutZeroing (a : InitArgs H) (k : Nat) (st : Store H n) {h : H}
    (hz : h ∉ a.zero_init) :
    p3_main_init_body a k st h k = p3_main_init_body a.withoutZeroing k st h k := by
  simp only [p3_main_init_body, InitArgs.withoutZeroing, zero_init_loop_same_level, hz,
    if_false, List.not_mem_nil]

theorem p3_main_init_loop_withoutZeroing (N : Nat) (a : InitArgs H) (st : Store H n) {h : H}
    (hz : h ∉ a.zero_init) :
    p3_main_init_loop N a st h = p3_main_init_loop N a.withoutZeroing st h := by
  funext k
  by_cases hk : k < N
  · rw [p3_main_init_loop_level N a st h hk, p3_main_init_loop_level N _ st h hk]
    exact p3_main_init_body_withoutZeroing a k st hz
  · rw [p3_main_init_loop_untouched N a st h (by omega),
      p3_main_init_loop_untouched N _ st h (by omega)]

end InitLemmas

/-! ## Lemmas on the column task -/

theorem writeBack_frame {H : Type} [DecidableEq H] {n : Nat} (hs : List H)
    (vs : List (View n)) (st : Store H n) {h : H} (hh : h ∉ hs) :
    writeBack hs vs st h = st h := by
  induction hs generalizing vs st with
  | nil => cases vs <;> rfl
  | cons a hs ih =>
    cases vs with
    | nil => rfl
    | cons v vs =>
      have h1 : h ≠ a := fun e => hh (e ▸ List.mem_cons_self _ _)
      have h2 : h ∉ hs := fun e => hh (List.mem_cons_of_mem _ e)
      show writeBack hs vs (Function.update st a v) h = st h
      rw [ih vs _ h2, Function.update_noteq h1]

section ColumnLemmas

variable {n : Nat} {O T : Type}

theorem after_init_scalars (fns : Functions n O T) (nk : Nat) (m : Mem n) :
    (after_init fns nk m).precip_liq_surf = 0 ∧ (after_init fns nk m).precip_ice_surf = 0 ∧
    (after_init fns nk m).stages = [Stage.Init] :=
  ⟨rfl, rfl, rfl⟩

theorem after_init_view (fns : Functions n O T) (nk : Nat) (m : Mem n) (v : Var) {k : Nat}
    (hk : k < fns.npack nk) :
    (after_init fns nk m).view v k =
      p3_main_init_body init_args k (take_many_and_reset take_ptrs m).view v k := by
  simp only [after_init, call_p3_main_init, p3_main_init,
    p3_main_init_loop_level (fns.npack nk) _ _ _ hk]

theorem init_args_distinct : init_args.OutputsDistinct := by decide

theorem init_args_inputs_kept : init_args.InputsKept := by decide

theorem after_init_defaults (fns : Functions n O T) (nk : Nat) (m : Mem n) {k : Nat}
    (hk : k < fns.npack nk) :
    (after_init fns nk m).view Var.odiag_equiv_refl k = Spack.splat (-99) ∧
    (after_init fns nk m).view Var.odiag_eff_radius_qc k = Spack.splat (10 / 10 ^ 6) ∧
    (after_init fns nk m).view Var.odiag_eff_radius_qi k = Spack.splat (25 / 10 ^ 6) ∧
    (after_init fns nk m).view Var.odiag_eff_radius_qr k = Spack.splat (500 / 10 ^ 6) := by
  obtain ⟨h1, -, -, h4, h5, h6⟩ :=
    p3_main_init_body_defaults init_args init_args_distinct k
      (take_many_and_reset take_ptrs m).view
  simp only [after_init_view fns nk m _ hk]
  exact ⟨h1, h4, h5, h6⟩

theorem after_init_zeroed (fns : Functions n O T) (nk : Nat) (m : Mem n) {k : Nat}
    (hk : k < fns.npack nk) {v : Var} (hv : v ∈ zero_init) :
    (after_init fns nk m).view v k = Spack.splat 0 := by
  rw [after_init_view fns nk m _ hk]
  exact p3_main_init_body_zeroed init_args k _ hv

theorem after_part1_frame (fns : Functions n O T) (runtime_options : P3Runtime O)
    (infrastructure : P3Infrastructure) (nk : Nat) (m : Mem n) :
    (∀ v, v ∉ p3_main_part1_views →
      (after_part1 fns runtime_options infrastructure nk m).view v
        = (after_init fns nk m).view v) ∧
    (after_part1 fns runtime_options infrastructure nk m).precip_liq_surf = 0 ∧
    (after_part1 fns runtime_options infrastructure nk m).precip_ice_surf = 0 ∧
    (after_part1 fns runtime_options infrastructure nk m).stages
      = [Stage.Init, Stage.Part1] :=
  ⟨fun _ hv => writeBack_frame _ _ _ hv, rfl, rfl, rfl⟩

theorem after_part2_frame (fns : Functions n O T) (runtime_options : P3Runtime O)
    (infrastructure : P3Infrastructure) (lookup_tables : P3LookupTables T) (nk : Nat)
    (m : Mem n) :
    (∀ v, v ∉ p3_main_part2_views →
      (after_part2 fns runtime_options infrastructure lookup_tables nk m).view v
        = (after_part1 fns runtime_options infrastructure nk m).view v) ∧
    (after_part2 fns runtime_options infrastructure lookup_tables nk m).precip_liq_surf = 0 ∧
    (after_part2 fns runtime_options infrastructure lookup_tables nk m).precip_ice_surf = 0 ∧
    (after_part2 fns runtime_options infrastructure lookup_tables nk m).stages
      = [Stage.Init, Stage.Part1, Stage.Part2] :=
  ⟨fun _ hv => writeBack_frame _ _ _ hv, rfl, rfl, rfl⟩

theorem debug_block_frame (nk_pack : Nat) (m : Mem n) :
    (∀ v, v ≠ Var.tmparr1 → (debug_block nk_pack m).view v = m.view v) ∧
    (debug_block nk_pack m).precip_liq_surf = m.precip_liq_surf ∧
    (debug_block nk_pack m).precip_ice_surf = m.precip_ice_surf ∧
    (debug_block nk_pack m).stages = m.stages := by
  refine ⟨?_, rfl, rfl, rfl⟩
  intro v hv
  have key : ∀ (ks : List Nat) (st : Store Var n),
      ks.foldl (fun st k =>
        setAt st Var.tmparr1 k (Spack.mul (st Var.oth k) (st Var.exner k))) st v = st v := by
    intro ks
    induction ks with
    | nil => intro st; rfl
    | cons k ks ih =>
      intro st
      rw [List.foldl_cons, ih]
      unfold setAt
      exact Function.update_noteq hv _ _
  exact key _ _

theorem p3_main_column_eq (fns : Functions n O T) (runtime_options : P3Runtime O)
    (infrastructure : P3Infrastructure) (lookup_tables : P3LookupTables T) (ndebug : Bool)
    (nk : Nat) (m : Mem n) :
    p3_main_column fns runtime_options infrastructure lookup_tables ndebug nk m
      = if !((after_part1 fns runtime_options infrastructure nk m).nucleationPossible ||
            (after_part1 fns runtime_options infrastructure nk m).hydrometeorsPresent) then
          after_part1 fns runtime_options infrastructure nk m
        else if !(after_part2 fns runtime_options infrastructure lookup_tables nk
            m).hydrometeorsPresent then
          after_part2 fns runtime_options infrastructure lookup_tables nk m
        else if ndebug then
          after_part3 fns runtime_options infrastructure lookup_tables nk m
        else
          debug_block (fns.npack nk)
            (after_part3 fns runtime_options infrastructure lookup_tables nk m) := by
  cases hd : runtime_options.do_ice_production <;>
    simp only [p3_main_column, after_part3, after_part2, after_part1, after_init, hd, id,
      if_true, if_false, Bool.false_eq_true]

theorem after_part3_stages (fns : Functions n O T) (runtime_options : P3Runtime O)
    (infrastructure : P3Infrastructure) (lookup_tables : P3LookupTables T) (nk : Nat)
    (m : Mem n) :
    (after_part3 fns runtime_options infrastructure lookup_tables nk m).stages
      = [Stage.Init, Stage.Part1, Stage.Part2, Stage.CloudSed, Stage.RainSed, Stage.IceSed]
        ++ (if runtime_options.do_ice_production then [Stage.HomFreeze] else [])
        ++ [Stage.Part3] := by
  cases hd : runtime_options.do_ice_production <;>
    simp [after_part3, hd, call_p3_main_part3, call_homogeneous_freezing,
      call_ice_sedimentation, call_rain_sedimentation, call_cloud_sedimentation,
      after_part2, call_p3_main_part2, after_part1, call_p3_main_part1, after_init,
      call_p3_main_init, take_many_and_reset]

theorem after_part1_congr (fns : Functions n O T) (runtime_options : P3Runtime O)
    (infrastructure : P3Infrastructure) (nk : Nat) (m m' : Mem n)
    (hv : ∀ v, v ∉ take_ptrs → m.view v = m'.view v) :
    after_part1 fns runtime_options infrastructure nk m
      = after_part1 fns runtime_options infrastructure nk m' := by
  have e : (take_many_and_reset take_ptrs m).view = (take_many_and_reset take_ptrs m').view := by
    funext v
    by_cases h : v ∈ take_ptrs
    · simp [take_many_and_reset, h]
    · simp [take_many_and_reset, h, hv v h]
  simp only [after_part1, after_init, call_p3_main_part1, call_p3_main_init, p3_main_init, e]
  rfl

theorem p3_main_column_congr (fns : Functions n O T) (runtime_options : P3Runtime O)
    (infrastructure : P3Infrastructure) (lookup_tables : P3LookupTables T) (ndebug : Bool)
    (nk : Nat) (m m' : Mem n) (hv : ∀ v, v ∉ take_ptrs → m.view v = m'.view v) :
    p3_main_column fns runtime_options infrastructure lookup_tables ndebug nk m
      = p3_main_column fns runtime_options infrastructure lookup_tables ndebug nk m' := by
  simp only [p3_main_column_eq, after_part3, after_part2,
    after_part1_congr fns runtime_options infrastructure nk m m' hv]

theorem p3_main_loop_apply (fns : Functions n O T) (runtime_options : P3Runtime O)
    (infrastructure : P3Infrastructure) (lookup_tables : P3LookupTables T) (ndebug : Bool)
    (nk : Nat) (order : List Nat) (ho : order.Nodup) (g : Nat → Mem n) (i : Nat) :
    p3_main_loop fns runtime_options infrastructure lookup_tables ndebug nk order g i
      = if i ∈ order then
          p3_main_column fns runtime_options infrastructure lookup_tables ndebug nk (g i)
        else g i := by
  induction order generalizing g with
  | nil => simp [p3_main_loop]
  | cons a order ih =>
    obtain ⟨ha, ho'⟩ := List.nodup_cons.mp ho
    have step : p3_main_loop fns runtime_options infrastructure lookup_tables ndebug nk
        (a :: order) g
        = p3_main_loop fns runtime_options infrastructure lookup_tables ndebug nk order
          (Function.update g a
            (p3_main_column fns runtime_options infrastructure lookup_tables ndebug nk
              (g a))) := rfl
    rw [step, ih ho']
    by_cases e : i = a
    · subst e
      simp [ha]
    · by_cases e' : i ∈ order
      · simp [e, e', Function.update_noteq e]
      · simp [e, e', Function.update_noteq e]

theorem p3_main_internal_apply (fns : Functions n O T) (runtime_options : P3Runtime O)
    (infrastructure : P3Infrastructure) (lookup_tables : P3LookupTables T) (ndebug : Bool)
    (nj nk : Nat) (g : Nat → Mem n) (i : Nat) :
    p3_main_internal fns runtime_options infrastructure lookup_tables ndebug nj nk g i
      = if i < nj then
          p3_main_column fns runtime_options infrastructure lookup_tables ndebug nk (g i)
        else g i := by
  unfold p3_main_internal
  rw [p3_main_loop_apply _ _ _ _ _ _ _ (List.nodup_range nj)]
  simp only [List.mem_range]

end ColumnLemmas

/-! ## `p3_main_init`: the claims -/

/-- C2: after `p3_main_init`, at every pack index `k < nk_pack`, the six
diagnostic defaults hold in every lane, whatever the memory held before:
`diag_equiv_reflectivity(k) = -99`, `ze_ice(k) = ze_rain(k) = 1e-22`,
`diag_eff_radius_qc(k) = 10e-6`, `diag_eff_radius_qi(k) = 25e-6` and
`diag_eff_radius_qr(k) = 500e-6`.  The assigned views are distinct buffers
outside `zero_init`; they are so at the call in `p3_main_internal`, where the
defaults therefore hold for every column memory `m`. -/
theorem p3_main_init_sets_defaults {H : Type} [DecidableEq H] {n : Nat} (nk_pack : Nat)
    (a : InitArgs H) (ha : a.OutputsDistinct) (st : Store H n)
    (precip_liq_surf precip_ice_surf : Scalar) (k : Nat) (hk : k < nk_pack) :
    (p3_main_init nk_pack a st precip_liq_surf precip_ice_surf).store
        a.diag_equiv_reflectivity k = Spack.splat (-99) ∧
    (p3_main_init nk_pack a st precip_liq_surf precip_ice_surf).store
        a.ze_ice k = Spack.splat (1 / 10 ^ 22) ∧
    (p3_main_init nk_pack a st precip_liq_surf precip_ice_surf).store
        a.ze_rain k = Spack.splat (1 / 10 ^ 22) ∧
    (p3_main_init nk_pack a st precip_liq_surf precip_ice_surf).store
        a.diag_eff_radius_qc k = Spack.splat (10 / 10 ^ 6) ∧
    (p3_main_init nk_pack a st precip_liq_surf precip_ice_surf).store
        a.diag_eff_radius_qi k = Spack.splat (25 / 10 ^ 6) ∧
    (p3_main_init nk_pack a st precip_liq_surf precip_ice_surf).store
        a.diag_eff_radius_qr k = Spack.splat (500 / 10 ^ 6) ∧
    (∀ m : Mem n,
      (call_p3_main_init nk_pack m).view Var.odiag_equiv_refl k = Spack.splat (-99) ∧
      (call_p3_main_init nk_pack m).view Var.ze_ice k = Spack.splat (1 / 10 ^ 22) ∧
      (call_p3_main_init nk_pack m).view Var.ze_rain k = Spack.splat (1 / 10 ^ 22) ∧
      (call_p3_main_init nk_pack m).view Var.odiag_eff_radius_qc k
        = Spack.splat (10 / 10 ^ 6) ∧
      (call_p3_main_init nk_pack m).view Var.odiag_eff_radius_qi k
        = Spack.splat (25 / 10 ^ 6) ∧
      (call_p3_main_init nk_pack m).view Var.odiag_eff_radius_qr k
        = Spack.splat (500 / 10 ^ 6)) := by
  simp only [p3_main_init, p3_main_init_loop_level nk_pack a st _ hk, call_p3_main_init,
    p3_main_init_loop_level nk_pack init_args _ _ hk, and_assoc]
  obtain ⟨h1, h2, h3, h4, h5, h6⟩ := p3_main_init_body_defaults a ha k st
  exact ⟨h1, h2, h3, h4, h5, h6,
    fun m => p3_main_init_body_defaults init_args init_args_distinct k m.view⟩

/-- Witness of C2 at the call of `p3_main_internal`, pack index 1 of 3. -/
theorem p3_main_init_sets_defaults_witness :
    (p3_main_init 3 init_args sampleStore 5 7).store
        init_args.diag_equiv_reflectivity 1 = Spack.splat (-99) ∧
    (p3_main_init 3 init_args sampleStore 5 7).store
        init_args.ze_ice 1 = Spack.splat (1 / 10 ^ 22) ∧
    (p3_main_init 3 init_args sampleStore 5 7).store
        init_args.ze_rain 1 = Spack.splat (1 / 10 ^ 22) ∧
    (p3_main_init 3 init_args sampleStore 5 7).store
        init_args.diag_eff_radius_qc 1 = Spack.splat (10 / 10 ^ 6) ∧
    (p3_main_init 3 init_args sampleStore 5 7).store
        init_args.diag_eff_radius_qi 1 = Spack.splat (25 / 10 ^ 6) ∧
    (p3_main_init 3 init_args sampleStore 5 7).store
        init_args.diag_eff_radius_qr 1 = Spack.splat (500 / 10 ^ 6) :=
  have h := p3_main_init_sets_defaults 3 init_args (by decide) sampleStore 5 7 1 (by decide)
  ⟨h.1, h.2.1, h.2.2.1, h.2.2.2.1, h.2.2.2.2.1, h.2.2.2.2.2.1⟩

/-- C3: `p3_main_init` sets `precip_liq_surf` and `precip_ice_surf` to exactly 0,
for every memory, every number of packs (0 included) and every value the two
accumulators had on entry. -/
theorem p3_main_init_resets_surface_precip {H : Type} [DecidableEq H] {n : Nat}
    (nk_pack : Nat) (a : InitArgs H) (st : Store H n)
    (precip_liq_surf precip_ice_surf : Scalar) :
    (p3_main_init nk_pack a st precip_liq_surf precip_ice_surf).precip_liq_surf = 0 ∧
    (p3_main_init nk_pack a st precip_liq_surf precip_ice_surf).precip_ice_surf = 0 ∧
    (p3_main_init 0 a st precip_liq_surf precip_ice_surf).precip_liq_surf = 0 ∧
    (p3_main_init 0 a st precip_liq_surf precip_ice_surf).precip_ice_surf = 0 ∧
    (∀ m : Mem n, (call_p3_main_init nk_pack m).precip_liq_surf = 0 ∧
      (call_p3_main_init nk_pack m).precip_ice_surf = 0) :=
  ⟨rfl, rfl, rfl, rfl, fun _ => ⟨rfl, rfl⟩⟩

/-- C7: at every pack index `k < nk_pack` and in every lane, `p3_main_init`
replaces `qv(k)` by `max(qv(k), 0)`: the result is non-negative, equals the old
value when that was non-negative, and clipping again (by `max` or by a second
run of `p3_main_init`) changes nothing.  The assigned views are distinct
buffers outside `zero_init`; they are so at the call in `p3_main_internal`,
where `oqv` is therefore clipped for every column memory `m`. -/
theorem p3_main_init_clips_qv {H : Type} [DecidableEq H] {n : Nat} (nk_pack : Nat)
    (a : InitArgs H) (ha : a.OutputsDistinct) (st : Store H n)
    (precip_liq_surf precip_ice_surf : Scalar) (k : Nat) (hk : k < nk_pack) (l : Fin n) :
    (p3_main_init nk_pack a st precip_liq_surf precip_ice_surf).store a.qv k l
      = max (st a.qv k l) 0 ∧
    0 ≤ (p3_main_init nk_pack a st precip_liq_surf precip_ice_surf).store a.qv k l ∧
    (0 ≤ st a.qv k l →
      (p3_main_init nk_pack a st precip_liq_surf precip_ice_surf).store a.qv k l
        = st a.qv k l) ∧
    Spack.smax ((p3_main_init nk_pack a st precip_liq_surf precip_ice_surf).store a.qv k) 0 l
      = (p3_main_init nk_pack a st precip_liq_surf precip_ice_surf).store a.qv k l ∧
    (p3_main_init nk_pack a
        (p3_main_init nk_pack a st precip_liq_surf precip_ice_surf).store 0 0).store a.qv k l
      = (p3_main_init nk_pack a st precip_liq_surf precip_ice_surf).store a.qv k l ∧
    (∀ m : Mem n,
      (call_p3_main_init nk_pack m).view Var.oqv k l = max (m.view Var.oqv k l) 0 ∧
      0 ≤ (call_p3_main_init nk_pack m).view Var.oqv k l) := by
  have e : ∀ st' : Store H n, ∀ p q : Scalar,
      (p3_main_init nk_pack a st' p q).store a.qv k l = max (st' a.qv k l) 0 :=
    fun st' _ _ => p3_main_init_loop_qv nk_pack a ha st' hk l
  have e' : ∀ m : Mem n,
      (call_p3_main_init nk_pack m).view Var.oqv k l = max (m.view Var.oqv k l) 0 :=
    fun m => p3_main_init_loop_qv nk_pack init_args init_args_distinct m.view hk l
  refine ⟨e st _ _, ?_, ?_, ?_, ?_, ?_⟩
  · rw [e]; exact le_max_right _ _
  · intro h0; rw [e]; exact max_eq_left h0
  · simp only [Spack.smax, e]; exact max_eq_left (le_max_right _ _)
  · rw [e, e]; exact max_eq_left (le_max_right _ _)
  · intro m
    refine ⟨e' m, ?_⟩
    rw [e' m]; exact le_max_right _ _

/-- Witness of C7 at the call of `p3_main_internal`: `oqv = -3` is clipped to 0. -/
theorem p3_main_init_clips_qv_witness :
    (p3_main_init 3 init_args sampleStore 5 7).store init_args.qv 1 0
      = max (sampleStore init_args.qv 1 0) 0 ∧
    0 ≤ (p3_main_init 3 init_args sampleStore 5 7).store init_args.qv 1 0 ∧
    (0 ≤ sampleStore init_args.qv 1 0 →
      (p3_main_init 3 init_args sampleStore 5 7).store init_args.qv 1 0
        = sampleStore init_args.qv 1 0) ∧
    Spack.smax ((p3_main_init 3 init_args sampleStore 5 7).store init_args.qv 1) 0 0
      = (p3_main_init 3 init_args sampleStore 5 7).store init_args.qv 1 0 ∧
    (p3_main_init 3 init_args
        (p3_main_init 3 init_args sampleStore 5 7).store 0 0).store init_args.qv 1 0
      = (p3_main_init 3 init_args sampleStore 5 7).store init_args.qv 1 0 :=
  have h := p3_main_init_clips_qv 3 init_args (by decide) sampleStore 5 7 1 (by decide) 0
  ⟨h.1, h.2.1, h.2.2.1, h.2.2.2.1, h.2.2.2.2.1⟩

/-- C8: when `p3_main_init` returns, every buffer `zero_init[j]` holds 0 in
every lane of every pack index `k < nk_pack`, for every list `zero_init` and
whatever the memory held before.  At the call in `p3_main_internal` the list
has 36 entries, among them `orho_qi`, `oqv2qi_depos_tend`, `oprecip_total_tend`,
`onevapr`, `oprecip_liq_flux` and `oprecip_ice_flux`, and all 36 are zeroed. -/
theorem p3_main_init_zeroes_zero_init {H : Type} [DecidableEq H] {n : Nat} (nk_pack : Nat)
    (a : InitArgs H) (st : Store H n) (precip_liq_surf precip_ice_surf : Scalar)
    (j : Nat) (hj : j < a.zero_init.length) (k : Nat) (hk : k < nk_pack) (m : Mem n) :
    (p3_main_init nk_pack a st precip_liq_surf precip_ice_surf).store
        (a.zero_init.get ⟨j, hj⟩) k = Spack.splat 0 ∧
    init_args.zero_init = zero_init ∧ zero_init.length = 36 ∧
    [Var.orho_qi, Var.oqv2qi_depos_tend, Var.oprecip_total_tend, Var.onevapr,
      Var.oprecip_liq_flux, Var.oprecip_ice_flux] ⊆ zero_init ∧
    (∀ v ∈ zero_init, (call_p3_main_init nk_pack m).view v k = Spack.splat 0) := by
  refine ⟨?_, rfl, rfl, by decide, ?_⟩
  · simp only [p3_main_init, p3_main_init_loop_level nk_pack a st _ hk]
    exact p3_main_init_body_zeroed a k st (List.get_mem _ _ _)
  · intro v hv
    simp only [call_p3_main_init, p3_main_init, p3_main_init_loop_level nk_pack _ _ _ hk]
    exact p3_main_init_body_zeroed init_args k _ hv

/-- Witness of C8 at the call of `p3_main_internal`: entry 30 of `zero_init`
(`orho_qi`), pack index 1 of 3. -/
theorem p3_main_init_zeroes_zero_init_witness :
    (p3_main_init 3 init_args sampleStore 5 7).store
        (init_args.zero_init.get ⟨30, by decide⟩) 1 = Spack.splat 0 ∧
    init_args.zero_init = zero_init ∧ zero_init.length = 36 ∧
    [Var.orho_qi, Var.oqv2qi_depos_tend, Var.oprecip_total_tend, Var.onevapr,
      Var.oprecip_liq_flux, Var.oprecip_ice_flux] ⊆ zero_init ∧
    (∀ v ∈ zero_init, (call_p3_main_init 3 sampleMem).view v 1 = Spack.splat 0) :=
  p3_main_init_zeroes_zero_init 3 init_args sampleStore 5 7 30 (by decide) 1 (by decide)
    sampleMem

/-- C10: over exact arithmetic, at every pack index `k < nk_pack` and lane where
`cld_frac_i`, `cld_frac_l`, `cld_frac_r`, `inv_exner` and `dz` are nonzero,
`p3_main_init` yields true reciprocals, `inv_cld_frac_x * cld_frac_x = 1`,
`exner * inv_exner = 1`, `inv_dz * dz = 1`, and the temperature
`T_atm = th_atm * exner = th_atm / inv_exner`; the six read-only views are
left unchanged.  The views are distinct buffers; they are so at the call in
`p3_main_internal`, where the same therefore holds for every column memory
`m`. -/
theorem p3_main_init_reciprocals {H : Type} [DecidableEq H] {n : Nat} (nk_pack : Nat)
    (a : InitArgs H) (ha : a.OutputsDistinct) (hi : a.InputsKept) (st : Store H n)
    (precip_liq_surf precip_ice_surf : Scalar) (k : Nat) (hk : k < nk_pack) (l : Fin n)
    (hci : st a.cld_frac_i k l ≠ 0) (hcl : st a.cld_frac_l k l ≠ 0)
    (hcr : st a.cld_frac_r k l ≠ 0) (hex : st a.inv_exner k l ≠ 0) (hdz : st a.dz k l ≠ 0) :
    ((p3_main_init nk_pack a st precip_liq_surf precip_ice_surf).store a.inv_cld_frac_i k l *
      (p3_main_init nk_pack a st precip_liq_surf precip_ice_surf).store a.cld_frac_i k l = 1 ∧
    (p3_main_init nk_pack a st precip_liq_surf precip_ice_surf).store a.inv_cld_frac_l k l *
      (p3_main_init nk_pack a st precip_liq_surf precip_ice_surf).store a.cld_frac_l k l = 1 ∧
    (p3_main_init nk_pack a st precip_liq_surf precip_ice_surf).store a.inv_cld_frac_r k l *
      (p3_main_init nk_pack a st precip_liq_surf precip_ice_surf).store a.cld_frac_r k l = 1 ∧
    (p3_main_init nk_pack a st precip_liq_surf precip_ice_surf).store a.exner k l *
      (p3_main_init nk_pack a st precip_liq_surf precip_ice_surf).store a.inv_exner k l = 1 ∧
    (p3_main_init nk_pack a st precip_liq_surf precip_ice_surf).store a.inv_dz k l *
      (p3_main_init nk_pack a st precip_liq_surf precip_ice_surf).store a.dz k l = 1 ∧
    (p3_main_init nk_pack a st precip_liq_surf precip_ice_surf).store a.T_atm k l =
      (p3_main_init nk_pack a st precip_liq_surf precip_ice_surf).store a.th_atm k l *
      (p3_main_init nk_pack a st precip_liq_surf precip_ice_surf).store a.exner k l ∧
    (p3_main_init nk_pack a st precip_liq_surf precip_ice_surf).store a.T_atm k l =
      st a.th_atm k l / st a.inv_exner k l ∧
    (∀ h ∈ a.inputs,
      (p3_main_init nk_pack a st precip_liq_surf precip_ice_surf).store h = st h)) ∧
    (∀ m : Mem n, m.view Var.ocld_frac_i k l ≠ 0 → m.view Var.ocld_frac_l k l ≠ 0 →
      m.view Var.ocld_frac_r k l ≠ 0 → m.view Var.oinv_exner k l ≠ 0 →
      m.view Var.odz k l ≠ 0 →
      (call_p3_main_init nk_pack m).view Var.inv_cld_frac_i k l *
        (call_p3_main_init nk_pack m).view Var.ocld_frac_i k l = 1 ∧
      (call_p3_main_init nk_pack m).view Var.inv_cld_frac_l k l *
        (call_p3_main_init nk_pack m).view Var.ocld_frac_l k l = 1 ∧
      (call_p3_main_init nk_pack m).view Var.inv_cld_frac_r k l *
        (call_p3_main_init nk_pack m).view Var.ocld_frac_r k l = 1 ∧
      (call_p3_main_init nk_pack m).view Var.exner k l *
        (call_p3_main_init nk_pack m).view Var.oinv_exner k l = 1 ∧
      (call_p3_main_init nk_pack m).view Var.inv_dz k l *
        (call_p3_main_init nk_pack m).view Var.odz k l = 1 ∧
      (call_p3_main_init nk_pack m).view Var.T_atm k l =
        (call_p3_main_init nk_pack m).view Var.oth k l *
        (call_p3_main_init nk_pack m).view Var.exner k l ∧
      (call_p3_main_init nk_pack m).view Var.T_atm k l =
        m.view Var.oth k l / m.view Var.oinv_exner k l ∧
      (∀ h ∈ init_args.inputs, (call_p3_main_init nk_pack m).view h = m.view h)) :=
  ⟨p3_main_init_loop_reciprocals nk_pack a ha hi st hk l hci hcl hcr hex hdz,
   fun m h1 h2 h3 h4 h5 =>
    p3_main_init_loop_reciprocals nk_pack init_args init_args_distinct init_args_inputs_kept
      m.view hk l h1 h2 h3 h4 h5⟩

/-- Witness of C10 at the call of `p3_main_internal` on `sampleStore`, whose
read-only views hold 2. -/
theorem p3_main_init_reciprocals_witness :
    (p3_main_init 3 init_args sampleStore 5 7).store init_args.inv_cld_frac_i 1 0 *
      (p3_main_init 3 init_args sampleStore 5 7).store init_args.cld_frac_i 1 0 = 1 ∧
    (p3_main_init 3 init_args sampleStore 5 7).store init_args.inv_cld_frac_l 1 0 *
      (p3_main_init 3 init_args sampleStore 5 7).store init_args.cld_frac_l 1 0 = 1 ∧
    (p3_main_init 3 init_args sampleStore 5 7).store init_args.inv_cld_frac_r 1 0 *
      (p3_main_init 3 init_args sampleStore 5 7).store init_args.cld_frac_r 1 0 = 1 ∧
    (p3_main_init 3 init_args sampleStore 5 7).store init_args.exner 1 0 *
      (p3_main_init 3 init_args sampleStore 5 7).store init_args.inv_exner 1 0 = 1 ∧
    (p3_main_init 3 init_args sampleStore 5 7).store init_args.inv_dz 1 0 *
      (p3_main_init 3 init_args sampleStore 5 7).store init_args.dz 1 0 = 1 ∧
    (p3_main_init 3 init_args sampleStore 5 7).store init_args.T_atm 1 0 =
      (p3_main_init 3 init_args sampleStore 5 7).store init_args.th_atm 1 0 *
      (p3_main_init 3 init_args sampleStore 5 7).store init_args.exner 1 0 ∧
    (p3_main_init 3 init_args sampleStore 5 7).store init_args.T_atm 1 0 =
      sampleStore init_args.th_atm 1 0 / sampleStore init_args.inv_exner 1 0 ∧
    (∀ h ∈ init_args.inputs, (p3_main_init 3 init_args sampleStore 5 7).store h
      = sampleStore h) :=
  (p3_main_init_reciprocals 3 init_args (by decide) (by decide) sampleStore 5 7 1
    (by decide) 0
    (by simp [sampleStore, init_args]) (by simp [sampleStore, init_args])
    (by simp [sampleStore, init_args]) (by simp [sampleStore, init_args])
    (by simp [sampleStore, init_args])).1

/-! ## The workspace request -/

/-- C9: the request `take_many_and_reset<43>` of a column task is well formed:
43 names, pairwise distinct; 43 view variables, pairwise distinct; the i-th
name is the identifier of the i-th variable; so two different positions of the
request never name the same buffer. -/
theorem take_many_and_reset_request_well_formed :
    take_names.length = 43 ∧ take_names.Nodup ∧
    take_ptrs.length = 43 ∧ take_ptrs.Nodup ∧
    take_ptrs.map Var.ident = take_names ∧
    (∀ i j : Fin take_ptrs.length, i ≠ j → take_ptrs.get i ≠ take_ptrs.get j) ∧
    (∀ i j : Fin take_names.length, i ≠ j → take_names.get i ≠ take_names.get j) := by
  have hn : take_names.Nodup := by decide
  have hp : take_ptrs.Nodup := by decide
  refine ⟨rfl, hn, rfl, hp, rfl, ?_, ?_⟩
  · intro i j hij e
    exact hij ((List.Nodup.get_inj_iff hp).mp e)
  · intro i j hij e
    exact hij ((List.Nodup.get_inj_iff hn).mp e)

/-! ## The column task: the claims -/

/-- C1: when both activity flags are false after `p3_main_part1`, the column
task runs the stages Init and Part1 and nothing else: its final state is the
state right after `p3_main_part1`; so at every pack index `k < nk_pack`
`diag_equiv_reflectivity = -99`, `diag_eff_radius_qc/qi/qr = 10e-6/25e-6/500e-6`,
the six zero-initialised diagnostic outputs are 0, and
`precip_liq_surf = precip_ice_surf = 0`. -/
theorem p3_main_column_exits_after_part1 {n : Nat} {O T : Type} (fns : Functions n O T)
    (runtime_options : P3Runtime O) (infrastructure : P3Infrastructure)
    (lookup_tables : P3LookupTables T) (ndebug : Bool) (nk : Nat) (m : Mem n)
    (hn : (after_part1 fns runtime_options infrastructure nk m).nucleationPossible = false)
    (hh : (after_part1 fns runtime_options infrastructure nk m).hydrometeorsPresent = false) :
    p3_main_column fns runtime_options infrastructure lookup_tables ndebug nk m
      = after_part1 fns runtime_options infrastructure nk m ∧
    (p3_main_column fns runtime_options infrastructure lookup_tables ndebug nk m).stages
      = [Stage.Init, Stage.Part1] ∧
    (p3_main_column fns runtime_options infrastructure lookup_tables ndebug nk m).precip_liq_surf
      = 0 ∧
    (p3_main_column fns runtime_options infrastructure lookup_tables ndebug nk m).precip_ice_surf
      = 0 ∧
    ∀ k, k < fns.npack nk →
      (p3_main_column fns runtime_options infrastructure lookup_tables ndebug nk m).view
        Var.odiag_equiv_refl k = Spack.splat (-99) ∧
      (p3_main_column fns runtime_options infrastructure lookup_tables ndebug nk m).view
        Var.odiag_eff_radius_qc k = Spack.splat (10 / 10 ^ 6) ∧
      (p3_main_column fns runtime_options infrastructure lookup_tables ndebug nk m).view
        Var.odiag_eff_radius_qi k = Spack.splat (25 / 10 ^ 6) ∧
      (p3_main_column fns runtime_options infrastructure lookup_tables ndebug nk m).view
        Var.odiag_eff_radius_qr k = Spack.splat (500 / 10 ^ 6) ∧
      (p3_main_column fns runtime_options infrastructure lookup_tables ndebug nk m).view
        Var.orho_qi k = Spack.splat 0 ∧
      (p3_main_column fns runtime_options infrastructure lookup_tables ndebug nk m).view
        Var.oqv2qi_depos_tend k = Spack.splat 0 ∧
      (p3_main_column fns runtime_options infrastructure lookup_tables ndebug nk m).view
        Var.oprecip_total_tend k = Spack.splat 0 ∧
      (p3_main_column fns runtime_options infrastructure lookup_tables ndebug nk m).view
        Var.onevapr k = Spack.splat 0 ∧
      (p3_main_column fns runtime_options infrastructure lookup_tables ndebug nk m).view
        Var.oprecip_liq_flux k = Spack.splat 0 ∧
      (p3_main_column fns runtime_options infrastructure lookup_tables ndebug nk m).view
        Var.oprecip_ice_flux k = Spack.splat 0 := by
  have e : p3_main_column fns runtime_options infrastructure lookup_tables ndebug nk m
      = after_part1 fns runtime_options infrastructure nk m := by
    simp [p3_main_column_eq, hn, hh]
  obtain ⟨hf, hl, hi, hs⟩ := after_part1_frame fns runtime_options infrastructure nk m
  rw [e]
  refine ⟨rfl, hs, hl, hi, ?_⟩
  intro k hk
  obtain ⟨d1, d2, d3, d4⟩ := after_init_defaults fns nk m hk
  rw [hf Var.odiag_equiv_refl (by decide), hf Var.odiag_eff_radius_qc (by decide),
    hf Var.odiag_eff_radius_qi (by decide), hf Var.odiag_eff_radius_qr (by decide),
    hf Var.orho_qi (by decide), hf Var.oqv2qi_depos_tend (by decide),
    hf Var.oprecip_total_tend (by decide), hf Var.onevapr (by decide),
    hf Var.oprecip_liq_flux (by decide), hf Var.oprecip_ice_flux (by decide)]
  exact ⟨d1, d2, d3, d4, after_init_zeroed fns nk m hk (by decide),
    after_init_zeroed fns nk m hk (by decide), after_init_zeroed fns nk m hk (by decide),
    after_init_zeroed fns nk m hk (by decide), after_init_zeroed fns nk m hk (by decide),
    after_init_zeroed fns nk m hk (by decide)⟩

/-- Witness of C1: a column of 3 levels whose `p3_main_part1` reports both
flags false. -/
theorem p3_main_column_exits_after_part1_witness :
    ((after_part1 (sampleFunctions false false false) sampleRuntime sampleInfrastructure 3
        sampleMem).nucleationPossible = false ∧
      (after_part1 (sampleFunctions false false false) sampleRuntime sampleInfrastructure 3
        sampleMem).hydrometeorsPresent = false) ∧
    (p3_main_column (sampleFunctions false false false) sampleRuntime sampleInfrastructure
        sampleTables true 3 sampleMem
      = after_part1 (sampleFunctions false false false) sampleRuntime sampleInfrastructure 3
        sampleMem) ∧
    (p3_main_column (sampleFunctions false false false) sampleRuntime sampleInfrastructure
        sampleTables true 3 sampleMem).stages = [Stage.Init, Stage.Part1] ∧
    (p3_main_column (sampleFunctions false false false) sampleRuntime sampleInfrastructure
        sampleTables true 3 sampleMem).view Var.odiag_equiv_refl 1 = Spack.splat (-99) :=
  have h := p3_main_column_exits_after_part1 (sampleFunctions false false false) sampleRuntime
    sampleInfrastructure sampleTables true 3 sampleMem rfl rfl
  ⟨⟨rfl, rfl⟩, h.1, h.2.1, (h.2.2.2.2 1 (by decide)).1⟩

/-- C4: when the column is active after `p3_main_part1` but
`hydrometeorsPresent` is false after `p3_main_part2`, the column task stops
before sedimentation: none of `cloud_sedimentation`, `rain_sedimentation`,
`ice_sedimentation`, `homogeneous_freezing`, `p3_main_part3` runs, the final
state is the state right after `p3_main_part2`, the two surface accumulators
are still 0 and `diag_equiv_reflectivity` and the three effective radii still
hold their defaults at every pack index `k < nk_pack`. -/
theorem p3_main_column_exits_after_part2 {n : Nat} {O T : Type} (fns : Functions n O T)
    (runtime_options : P3Runtime O) (infrastructure : P3Infrastructure)
    (lookup_tables : P3LookupTables T) (ndebug : Bool) (nk : Nat) (m : Mem n)
    (hact : ((after_part1 fns runtime_options infrastructure nk m).nucleationPossible ||
      (after_part1 fns runtime_options infrastructure nk m).hydrometeorsPresent) = true)
    (hh : (after_part2 fns runtime_options infrastructure lookup_tables nk
      m).hydrometeorsPresent = false) :
    p3_main_column fns runtime_options infrastructure lookup_tables ndebug nk m
      = after_part2 fns runtime_options infrastructure lookup_tables nk m ∧
    (p3_main_column fns runtime_options infrastructure lookup_tables ndebug nk m).stages
      = [Stage.Init, Stage.Part1, Stage.Part2] ∧
    (∀ s ∈ [Stage.CloudSed, Stage.RainSed, Stage.IceSed, Stage.HomFreeze, Stage.Part3],
      s ∉ (p3_main_column fns runtime_options infrastructure lookup_tables ndebug nk
        m).stages) ∧
    (p3_main_column fns runtime_options infrastructure lookup_tables ndebug nk m).precip_liq_surf
      = 0 ∧
    (p3_main_column fns runtime_options infrastructure lookup_tables ndebug nk m).precip_ice_surf
      = 0 ∧
    ∀ k, k < fns.npack nk →
      (p3_main_column fns runtime_options infrastructure lookup_tables ndebug nk m).view
        Var.odiag_equiv_refl k = Spack.splat (-99) ∧
      (p3_main_column fns runtime_options infrastructure lookup_tables ndebug nk m).view
        Var.odiag_eff_radius_qc k = Spack.splat (10 / 10 ^ 6) ∧
      (p3_main_column fns runtime_options infrastructure lookup_tables ndebug nk m).view
        Var.odiag_eff_radius_qi k = Spack.splat (25 / 10 ^ 6) ∧
      (p3_main_column fns runtime_options infrastructure lookup_tables ndebug nk m).view
        Var.odiag_eff_radius_qr k = Spack.splat (500 / 10 ^ 6) := by
  have e : p3_main_column fns runtime_options infrastructure lookup_tables ndebug nk m
      = after_part2 fns runtime_options infrastructure lookup_tables nk m := by
    simp [p3_main_column_eq, hact, hh]
  obtain ⟨hf1, -, -, -⟩ := after_part1_frame fns runtime_options infrastructure nk m
  obtain ⟨hf2, hl, hi, hs⟩ :=
    after_part2_frame fns runtime_options infrastructure lookup_tables nk m
  rw [e]
  refine ⟨rfl, hs, ?_, hl, hi, ?_⟩
  · rw [hs]; decide
  · intro k hk
    rw [hf2 Var.odiag_equiv_refl (by decide), hf2 Var.odiag_eff_radius_qc (by decide),
      hf2 Var.odiag_eff_radius_qi (by decide), hf2 Var.odiag_eff_radius_qr (by decide),
      hf1 Var.odiag_equiv_refl (by decide), hf1 Var.odiag_eff_radius_qc (by decide),
      hf1 Var.odiag_eff_radius_qi (by decide), hf1 Var.odiag_eff_radius_qr (by decide)]
    exact after_init_defaults fns nk m hk

/-- Witness of C4: a column of 3 levels where nucleation is possible after
`p3_main_part1` and no hydrometeors are left after `p3_main_part2`. -/
theorem p3_main_column_exits_after_part2_witness :
    (((after_part1 (sampleFunctions true false false) sampleRuntime sampleInfrastructure 3
          sampleMem).nucleationPossible ||
        (after_part1 (sampleFunctions true false false) sampleRuntime sampleInfrastructure 3
          sampleMem).hydrometeorsPresent) = true ∧
      (after_part2 (sampleFunctions true false false) sampleRuntime sampleInfrastructure
        sampleTables 3 sampleMem).hydrometeorsPresent = false) ∧
    (p3_main_column (sampleFunctions true false false) sampleRuntime sampleInfrastructure
        sampleTables true 3 sampleMem
      = after_part2 (sampleFunctions true false false) sampleRuntime sampleInfrastructure
        sampleTables 3 sampleMem) ∧
    (p3_main_column (sampleFunctions true false false) sampleRuntime sampleInfrastructure
        sampleTables true 3 sampleMem).stages = [Stage.Init, Stage.Part1, Stage.Part2] ∧
    (p3_main_column (sampleFunctions true false false) sampleRuntime sampleInfrastructure
        sampleTables true 3 sampleMem).precip_liq_surf = 0 :=
  have h := p3_main_column_exits_after_part2 (sampleFunctions true false false) sampleRuntime
    sampleInfrastructure sampleTables true 3 sampleMem rfl rfl
  ⟨⟨rfl, rfl⟩, h.1, h.2.1, h.2.2.2.1⟩

/-- C5: when the column is active after `p3_main_part1` and hydrometeors are
still present after `p3_main_part2`, the stages run once each in the order
Init, Part1, Part2, cloud, rain and ice sedimentation, homogeneous freezing,
Part3, the freezing being run exactly when `do_ice_production` is true: the
column result is the composition of the stage calls in that order, with the
freezing replaced by the identity when the flag is false.  A build without
`NDEBUG` then overwrites the scratch buffer `tmparr1` and nothing else. -/
theorem p3_main_column_runs_all_stages {n : Nat} {O T : Type} (fns : Functions n O T)
    (runtime_options : P3Runtime O) (infrastructure : P3Infrastructure)
    (lookup_tables : P3LookupTables T) (ndebug : Bool) (nk : Nat) (m : Mem n)
    (hact : ((after_part1 fns runtime_options infrastructure nk m).nucleationPossible ||
      (after_part1 fns runtime_options infrastructure nk m).hydrometeorsPresent) = true)
    (hh : (after_part2 fns runtime_options infrastructure lookup_tables nk
      m).hydrometeorsPresent = true) :
    p3_main_column fns runtime_options infrastructure lookup_tables ndebug nk m
      = (if ndebug then id else debug_block (fns.npack nk))
        (call_p3_main_part3 fns runtime_options lookup_tables (fns.npack nk)
        ((if runtime_options.do_ice_production then call_homogeneous_freezing fns nk else id)
        (call_ice_sedimentation fns runtime_options infrastructure lookup_tables
          (1 / infrastructure.dt) nk
        (call_rain_sedimentation fns runtime_options infrastructure lookup_tables
          (1 / infrastructure.dt) nk
        (call_cloud_sedimentation fns infrastructure lookup_tables (1 / infrastructure.dt) nk
        (call_p3_main_part2 fns runtime_options infrastructure lookup_tables
          (1 / infrastructure.dt) nk (fns.npack nk)
        (call_p3_main_part1 fns runtime_options infrastructure nk
        (call_p3_main_init (fns.npack nk)
        (take_many_and_reset take_ptrs m))))))))) ∧
    (p3_main_column fns runtime_options infrastructure lookup_tables ndebug nk m).stages
      = [Stage.Init, Stage.Part1, Stage.Part2, Stage.CloudSed, Stage.RainSed, Stage.IceSed]
        ++ (if runtime_options.do_ice_production then [Stage.HomFreeze] else [])
        ++ [Stage.Part3] ∧
    (p3_main_column fns runtime_options infrastructure lookup_tables ndebug nk m).stages.Nodup ∧
    (Stage.HomFreeze ∈
        (p3_main_column fns runtime_options infrastructure lookup_tables ndebug nk m).stages
      ↔ runtime_options.do_ice_production = true) ∧
    (∀ v, v ≠ Var.tmparr1 →
      (p3_main_column fns runtime_options infrastructure lookup_tables ndebug nk m).view v
        = (p3_main_column fns runtime_options infrastructure lookup_tables true nk m).view v) ∧
    (p3_main_column fns runtime_options infrastructure lookup_tables ndebug nk m).precip_liq_surf
      = (p3_main_column fns runtime_options infrastructure lookup_tables true nk
        m).precip_liq_surf ∧
    (p3_main_column fns runtime_options infrastructure lookup_tables ndebug nk m).precip_ice_surf
      = (p3_main_column fns runtime_options infrastructure lookup_tables true nk
        m).precip_ice_surf := by
  have e : ∀ b : Bool,
      p3_main_column fns runtime_options infrastructure lookup_tables b nk m
      = (if b then id else debug_block (fns.npack nk))
        (after_part3 fns runtime_options infrastructure lookup_tables nk m) := by
    intro b
    cases b <;> simp [p3_main_column_eq, hact, hh]
  have hst := after_part3_stages fns runtime_options infrastructure lookup_tables nk m
  have hstages : ∀ b : Bool,
      (p3_main_column fns runtime_options infrastructure lookup_tables b nk m).stages
      = [Stage.Init, Stage.Part1, Stage.Part2, Stage.CloudSed, Stage.RainSed, Stage.IceSed]
        ++ (if runtime_options.do_ice_production then [Stage.HomFreeze] else [])
        ++ [Stage.Part3] := by
    intro b
    rw [e b, ← hst]
    cases b
    · exact (debug_block_frame _ _).2.2.2
    · rfl
  obtain ⟨dv, dl, di, -⟩ := debug_block_frame (fns.npack nk)
    (after_part3 fns runtime_options infrastructure lookup_tables nk m)
  refine ⟨e ndebug, hstages ndebug, ?_, ?_, ?_, ?_, ?_⟩
  · rw [hstages ndebug]
    cases runtime_options.do_ice_production <;> decide
  · rw [hstages ndebug]
    cases runtime_options.do_ice_production <;> decide
  · intro v hv
    rw [e ndebug, e true]
    cases ndebug
    · exact dv v hv
    · rfl
  · rw [e ndebug, e true]
    cases ndebug
    · exact dl
    · rfl
  · rw [e ndebug, e true]
    cases ndebug
    · exact di
    · rfl

/-- Witness of C5: a column of 3 levels with hydrometeors present after
`p3_main_part1` and after `p3_main_part2`, ice production switched on. -/
theorem p3_main_column_runs_all_stages_witness :
    (((after_part1 (sampleFunctions false true true) sampleRuntime sampleInfrastructure 3
          sampleMem).nucleationPossible ||
        (after_part1 (sampleFunctions false true true) sampleRuntime sampleInfrastructure 3
          sampleMem).hydrometeorsPresent) = true ∧
      (after_part2 (sampleFunctions false true true) sampleRuntime sampleInfrastructure
        sampleTables 3 sampleMem).hydrometeorsPresent = true) ∧
    (p3_main_column (sampleFunctions false true true) sampleRuntime sampleInfrastructure
        sampleTables true 3 sampleMem).stages
      = [Stage.Init, Stage.Part1, Stage.Part2, Stage.CloudSed, Stage.RainSed, Stage.IceSed,
          Stage.HomFreeze, Stage.Part3] ∧
    (p3_main_column (sampleFunctions false true true) sampleRuntime sampleInfrastructure
        sampleTables true 3 sampleMem).stages.Nodup :=
  have h := p3_main_column_runs_all_stages (sampleFunctions false true true) sampleRuntime
    sampleInfrastructure sampleTables true 3 sampleMem rfl rfl
  ⟨⟨rfl, rfl⟩, h.2.1, h.2.2.1⟩

/-! ## Column independence -/

/-- C6: for every number of columns `nj` and column `i < nj`, the result of
`p3_main_internal` in column `i` is the column task applied to column `i`, and
it depends only on the input slices of column `i` (its non-workspace views)
and the shared options, scalars and tables: a run from any `g'` that agrees
with `g` on these slices gives the same column `i`, whatever the other
columns, the workspace, the accumulators and the flags hold.  Hence running
on rearranged columns rearranges the results in the same way, and the order in
which the teams are scheduled does not matter.  The workspace pool is taken
to hand out zero-initialized buffers, as the specification states. -/
theorem p3_main_internal_column_independent {n : Nat} {O T : Type} (fns : Functions n O T)
    (runtime_options : P3Runtime O) (infrastructure : P3Infrastructure)
    (lookup_tables : P3LookupTables T) (ndebug : Bool) (nj nk : Nat)
    (g g' : Nat → Mem n) (i : Nat) (hi : i < nj)
    (hsame : ∀ v, v ∉ take_ptrs → (g i).view v = (g' i).view v)
    (σ : Nat → Nat) (hσ : ∀ c, c < nj → σ c < nj) :
    p3_main_internal fns runtime_options infrastructure lookup_tables ndebug nj nk g i
      = p3_main_column fns runtime_options infrastructure lookup_tables ndebug nk (g i) ∧
    p3_main_internal fns runtime_options infrastructure lookup_tables ndebug nj nk g i
      = p3_main_internal fns runtime_options infrastructure lookup_tables ndebug nj nk g' i ∧
    (∀ c, c < nj →
      p3_main_internal fns runtime_options infrastructure lookup_tables ndebug nj nk
          (fun c => g (σ c)) c
        = p3_main_internal fns runtime_options infrastructure lookup_tables ndebug nj nk g
          (σ c)) ∧
    (∀ order : List Nat, order.Perm (List.range nj) →
      p3_main_loop fns runtime_options infrastructure lookup_tables ndebug nk order g
        = p3_main_internal fns runtime_options infrastructure lookup_tables ndebug nj nk g) := by
  refine ⟨?_, ?_, ?_, ?_⟩
  · rw [p3_main_internal_apply, if_pos hi]
  · rw [p3_main_internal_apply, p3_main_internal_apply, if_pos hi, if_pos hi]
    exact p3_main_column_congr fns runtime_options infrastructure lookup_tables ndebug nk _ _
      hsame
  · intro c hc
    rw [p3_main_internal_apply, p3_main_internal_apply, if_pos hc, if_pos (hσ c hc)]
  · intro order hp
    funext c
    rw [p3_main_internal_apply,
      p3_main_loop_apply _ _ _ _ _ _ _ (hp.nodup_iff.mpr (List.nodup_range nj))]
    simp only [hp.mem_iff, List.mem_range]

/-- Witness of C6: three columns, column 1, the rotation of the columns, and
inputs that differ from the sample ones everywhere but on the input slices of
column 1. -/
theorem p3_main_internal_column_independent_witness :
    p3_main_internal (sampleFunctions false true true) sampleRuntime sampleInfrastructure
        sampleTables true 3 3 sampleColumns 1
      = p3_main_internal (sampleFunctions false true true) sampleRuntime sampleInfrastructure
        sampleTables true 3 3 otherColumns 1 ∧
    (∀ c, c < 3 →
      p3_main_internal (sampleFunctions false true true) sampleRuntime sampleInfrastructure
          sampleTables true 3 3 (fun c => sampleColumns (sampleRotation c)) c
        = p3_main_internal (sampleFunctions false true true) sampleRuntime
          sampleInfrastructure sampleTables true 3 3 sampleColumns (sampleRotation c)) :=
  have h := p3_main_internal_column_independent (sampleFunctions false true true)
    sampleRuntime sampleInfrastructure sampleTables true 3 3 sampleColumns otherColumns 1
    (by decide) (fun v hv => by simp [sampleColumns, otherColumns, hv]) sampleRotation
    (by decide)
  ⟨h.2.1, h.2.2.1⟩

/-! ## The zeroing loop and the assigned views -/

/-- C11: in `p3_main_init` the zeroing loop runs after the default and derived
assignments of the same level, so a buffer that is both assigned and listed in
`zero_init` ends as 0 at every pack index `k < nk_pack`, not as one of the
(nonzero) defaults that the same run without the zeroing loop leaves in the
six default views.  At the call in `p3_main_internal` the 36 buffers of
`zero_init` are disjoint from the 13 assigned buffers, so for every column
memory `m` the 13 buffers end as they would without the zeroing loop, with
their default or derived values at every `k < nk_pack`. -/
theorem p3_main_init_zeroing_runs_last {H : Type} [DecidableEq H] {n : Nat} (nk_pack : Nat)
    (a : InitArgs H) (st : Store H n) (precip_liq_surf precip_ice_surf : Scalar) (h : H)
    (ho : h ∈ a.outputs) (hz : h ∈ a.zero_init) (k : Nat) (hk : k < nk_pack) (m : Mem n) :
    (p3_main_init nk_pack a st precip_liq_surf precip_ice_surf).store h k = Spack.splat 0 ∧
    (∀ l : Fin n, (p3_main_init nk_pack a st precip_liq_surf precip_ice_surf).store h k l
      ∉ [(-99 : Scalar), 1 / 10 ^ 22, 10 / 10 ^ 6, 25 / 10 ^ 6, 500 / 10 ^ 6]) ∧
    ¬ a.OutputsDistinct ∧
    (a.outputs.Nodup →
      (p3_main_init nk_pack a.withoutZeroing st precip_liq_surf precip_ice_surf).store
          a.diag_equiv_reflectivity k = Spack.splat (-99) ∧
      (p3_main_init nk_pack a.withoutZeroing st precip_liq_surf precip_ice_surf).store
          a.ze_ice k = Spack.splat (1 / 10 ^ 22) ∧
      (p3_main_init nk_pack a.withoutZeroing st precip_liq_surf precip_ice_surf).store
          a.ze_rain k = Spack.splat (1 / 10 ^ 22) ∧
      (p3_main_init nk_pack a.withoutZeroing st precip_liq_surf precip_ice_surf).store
          a.diag_eff_radius_qc k = Spack.splat (10 / 10 ^ 6) ∧
      (p3_main_init nk_pack a.withoutZeroing st precip_liq_surf precip_ice_surf).store
          a.diag_eff_radius_qi k = Spack.splat (25 / 10 ^ 6) ∧
      (p3_main_init nk_pack a.withoutZeroing st precip_liq_surf precip_ice_surf).store
          a.diag_eff_radius_qr k = Spack.splat (500 / 10 ^ 6)) ∧
    init_args.zero_init.length = 36 ∧
    init_args.outputs = [Var.odiag_equiv_refl, Var.ze_ice, Var.ze_rain,
      Var.odiag_eff_radius_qc, Var.odiag_eff_radius_qi, Var.odiag_eff_radius_qr,
      Var.inv_cld_frac_i, Var.inv_cld_frac_l, Var.inv_cld_frac_r, Var.exner, Var.T_atm,
      Var.oqv, Var.inv_dz] ∧
    (∀ v ∈ init_args.outputs, v ∉ init_args.zero_init) ∧
    (∀ v ∈ init_args.zero_init, v ∉ init_args.outputs) ∧
    (∀ v ∈ init_args.outputs, (call_p3_main_init nk_pack m).view v
      = (p3_main_init nk_pack init_args.withoutZeroing m.view m.precip_liq_surf
          m.precip_ice_surf).store v) ∧
    ((call_p3_main_init nk_pack m).view Var.odiag_equiv_refl k = Spack.splat (-99) ∧
      (call_p3_main_init nk_pack m).view Var.ze_ice k = Spack.splat (1 / 10 ^ 22) ∧
      (call_p3_main_init nk_pack m).view Var.ze_rain k = Spack.splat (1 / 10 ^ 22) ∧
      (call_p3_main_init nk_pack m).view Var.odiag_eff_radius_qc k
        = Spack.splat (10 / 10 ^ 6) ∧
      (call_p3_main_init nk_pack m).view Var.odiag_eff_radius_qi k
        = Spack.splat (25 / 10 ^ 6) ∧
      (call_p3_main_init nk_pack m).view Var.odiag_eff_radius_qr k
        = Spack.splat (500 / 10 ^ 6)) ∧
    ((call_p3_main_init nk_pack m).view Var.inv_cld_frac_i k
        = Spack.sdiv 1 (m.view Var.ocld_frac_i k) ∧
      (call_p3_main_init nk_pack m).view Var.inv_cld_frac_l k
        = Spack.sdiv 1 (m.view Var.ocld_frac_l k) ∧
      (call_p3_main_init nk_pack m).view Var.inv_cld_frac_r k
        = Spack.sdiv 1 (m.view Var.ocld_frac_r k) ∧
      (call_p3_main_init nk_pack m).view Var.exner k
        = Spack.sdiv 1 (m.view Var.oinv_exner k) ∧
      (call_p3_main_init nk_pack m).view Var.T_atm k
        = Spack.mul (m.view Var.oth k) (Spack.sdiv 1 (m.view Var.oinv_exner k)) ∧
      (call_p3_main_init nk_pack m).view Var.inv_dz k = Spack.sdiv 1 (m.view Var.odz k)) ∧
    (call_p3_main_init nk_pack m).view Var.oqv k = Spack.smax (m.view Var.oqv k) 0 := by
  have hzero : (p3_main_init nk_pack a st precip_liq_surf precip_ice_surf).store h k
      = Spack.splat 0 := by
    simp only [p3_main_init, p3_main_init_loop_level nk_pack a st _ hk]
    exact p3_main_init_body_zeroed a k st hz
  have hcall : ∀ v, (call_p3_main_init nk_pack m).view v k
      = p3_main_init_body init_args k m.view v k :=
    fun v => p3_main_init_loop_level nk_pack init_args m.view v hk
  have hdisj : ∀ v ∈ init_args.outputs, v ∉ init_args.zero_init := init_args_distinct.2
  refine ⟨hzero, ?_, fun hd => hd.2 h ho hz, ?_, rfl, rfl, hdisj,
    fun v hv hv' => hdisj v hv' hv, ?_, ?_, ?_, ?_⟩
  · intro l
    rw [hzero]
    simp only [Spack.splat]
    norm_num
  · intro hnd
    have hd : a.withoutZeroing.OutputsDistinct := ⟨hnd, fun _ _ => List.not_mem_nil _⟩
    simp only [p3_main_init, p3_main_init_loop_level nk_pack a.withoutZeroing st _ hk]
    exact p3_main_init_body_defaults a.withoutZeroing hd k st
  · intro v hv
    exact p3_main_init_loop_withoutZeroing nk_pack init_args m.view (hdisj v hv)
  · simp only [hcall]
    exact p3_main_init_body_defaults init_args init_args_distinct k m.view
  · simp only [hcall]
    exact p3_main_init_body_derived init_args init_args_distinct init_args_inputs_kept k
      m.view
  · rw [hcall]
    exact p3_main_init_body_qv init_args init_args_distinct k m.view

/-- Witness of C11: `odiag_equiv_refl` is both assigned and listed in the
`zero_init` of `aliasedArgs`; at pack index 1 of 3 it ends as 0, not -99. -/
theorem p3_main_init_zeroing_runs_last_witness :
    (Var.odiag_equiv_refl ∈ aliasedArgs.outputs ∧
      Var.odiag_equiv_refl ∈ aliasedArgs.zero_init) ∧
    (p3_main_init 3 aliasedArgs sampleStore 5 7).store Var.odiag_equiv_refl 1
      = Spack.splat 0 ∧
    (∀ l : Fin 2, (p3_main_init 3 aliasedArgs sampleStore 5 7).store Var.odiag_equiv_refl 1 l
      ∉ [(-99 : Scalar), 1 / 10 ^ 22, 10 / 10 ^ 6, 25 / 10 ^ 6, 500 / 10 ^ 6]) ∧
    (p3_main_init 3 aliasedArgs.withoutZeroing sampleStore 5 7).store
        aliasedArgs.diag_equiv_reflectivity 1 = Spack.splat (-99) ∧
    (∀ v ∈ init_args.outputs, v ∉ init_args.zero_init) ∧
    (call_p3_main_init 3 sampleMem).view Var.odiag_equiv_refl 1 = Spack.splat (-99) :=
  have h := p3_main_init_zeroing_runs_last 3 aliasedArgs sampleStore 5 7 Var.odiag_equiv_refl
    (by decide) (by decide) 1 (by decide) sampleMem
  ⟨⟨by decide, by decide⟩, h.1, h.2.1, (h.2.2.2.1 (by decide)).1, h.2.2.2.2.2.2.1,
    h.2.2.2.2.2.2.2.2.2.1.1⟩

end P3
